import Mathlib

/-!
Verification of the ArbitrAI CRE arbitration workflow.

This development gives a shallow embedding, in Lean 4, of the off-chain
arbitration workflow of the ArbitrAI repository and proves properties of it:

* `cre-workflow/src/signer.ts` — ABI-style field encoders, the verdict hash
  (`computeVerdictHash`), ECDSA signature encoding (`signVerdict`), and the
  `submitVerdict` calldata builder;
* `cre-workflow/src/chain.ts` — operator address derivation and workflow output;
* `cre-workflow/src/consensus.ts` — the 2-of-3 consensus engine
  (`applyConsensus`, `simulateWhatIf`);
* `cre-workflow/src/models.ts` — model response parsing (`parseModelResponse`,
  `queryAllModels`);
* `cre-workflow/src/evidence.ts` — evidence fetching with keccak-256 integrity
  verification (`fetchEvidenceConfidential`);
* `cre-workflow/src/index.ts` — the orchestrator (`resolveDispute`);
* `frontend/src/lib/cre/consensus.ts` — the frontend copy of the consensus
  engine (namespace `Frontend`).

JavaScript strings are modelled as `List Char` (`Str`), byte arrays as
`List Nat` with every entry `< 256`, and JavaScript numbers as `ℕ`/`ℤ`/`ℚ`
as appropriate for how each value is produced.  keccak-256 (imported by the
source from `@noble/hashes/sha3`) is implemented here concretely and matches
the standard Keccak-256 test vectors.  secp256k1 (imported from
`@noble/curves/secp256k1`) is external to the repository; its use in
`signVerdict` is embedded through an explicit `sign` parameter, and the
signing/recovery mathematics is modelled from the specification (§4.4).
-/

set_option maxRecDepth 100000

/-- JavaScript strings are modelled as lists of characters. -/
abbrev Str := List Char

/-- Model of JavaScript `String.prototype.padStart(n, c)`. -/
def padStartChars (n : Nat) (c : Char) (l : Str) : Str :=
  List.replicate (n - l.length) c ++ l

/-- Model of JavaScript `String.prototype.padEnd(n, c)`. -/
def padEndChars (n : Nat) (c : Char) (l : Str) : Str :=
  l ++ List.replicate (n - l.length) c

/-- Model of JavaScript `s.replace('0x', '')`: remove the first (leftmost)
occurrence of the two-character pattern `0x`, if any. -/
def replaceFirst0x : Str → Str
  | [] => []
  | '0' :: 'x' :: rest => rest
  | c :: rest => c :: replaceFirst0x rest

/-- Lowercase hex digit character for a value `d < 16`, as produced by
JavaScript `toString(16)` and by `@noble/hashes` `bytesToHex`. -/
def hexChar (d : Nat) : Char :=
  if d < 10 then Char.ofNat (48 + d) else Char.ofNat (87 + d)

/-- Numeric value of a hex digit character (`0-9`, `a-f`, `A-F`); `0` otherwise. -/
def hexVal (c : Char) : Nat :=
  if '0' ≤ c ∧ c ≤ '9' then c.toNat - 48
  else if 'a' ≤ c ∧ c ≤ 'f' then c.toNat - 87
  else if 'A' ≤ c ∧ c ≤ 'F' then c.toNat - 55
  else 0

/-- The sixteen lowercase hex digit characters. -/
def lowerHexChars : List Char := "0123456789abcdef".data

/-- Little-endian base-16 digits of `n`, computed with structural fuel so that
the kernel can evaluate it.  Agrees with `Nat.digits 16` (see
`hexDigits_eq_digits`). -/
def hexDigitsAux : Nat → Nat → List Nat
  | 0, _ => []
  | fuel + 1, n => if n = 0 then [] else n % 16 :: hexDigitsAux fuel (n / 16)

/-- Little-endian base-16 digits of `n`. -/
def hexDigits (n : Nat) : List Nat := hexDigitsAux n n

/-- Model of JavaScript `BigInt(n).toString(16)` for `n > 0` (most significant
digit first, no leading zeros); returns `[]` at `0`. -/
def natToHexCore (n : Nat) : Str := ((hexDigits n).map hexChar).reverse

/-- Model of JavaScript `BigInt(n).toString(16)` (which renders `0` as `"0"`). -/
def natToHex (n : Nat) : Str := if n = 0 then ['0'] else natToHexCore n

/-- Model of `@noble/hashes` `bytesToHex`: two lowercase hex characters per byte. -/
def bytesToHex (bytes : List Nat) : Str :=
  bytes.flatMap (fun b => [hexChar (b / 16 % 16), hexChar (b % 16)])

/-- Model of `@noble/hashes` `hexToBytes`: consume the characters two at a time. -/
def hexToBytes : Str → List Nat
  | c1 :: c2 :: rest => (16 * hexVal c1 + hexVal c2) :: hexToBytes rest
  | _ => []

/-- Big-endian base-256 representation of `n % 256^k` on exactly `k` bytes. -/
def bytesBE : Nat → Nat → List Nat
  | 0, _ => []
  | k + 1, n => bytesBE k (n / 256) ++ [n % 256]

/-- Value of a big-endian byte string (used to invert `bytesBE`). -/
def parseBytesBE (l : List Nat) : Nat := l.foldl (fun acc b => 256 * acc + b) 0

/-- Value of a hex character string, most significant digit first. -/
def parseHex (l : Str) : Nat := l.foldl (fun acc c => 16 * acc + hexVal c) 0

/-- UTF-8 encoding of one unicode scalar value (the byte sequence
`TextEncoder.encode` produces for it). -/
def utf8Char (n : Nat) : List Nat :=
  if n < 0x80 then [n]
  else if n < 0x800 then [0xc0 + n / 64, 0x80 + n % 64]
  else if n < 0x10000 then [0xe0 + n / 4096, 0x80 + n / 64 % 64, 0x80 + n % 64]
  else [0xf0 + n / 262144, 0x80 + n / 4096 % 64, 0x80 + n / 64 % 64, 0x80 + n % 64]

/-- Model of JavaScript `new TextEncoder().encode(s)`: UTF-8 bytes of a string. -/
def utf8Encode (s : Str) : List Nat := s.flatMap (fun c => utf8Char c.toNat)

/-- Lowercasing of a string, as applied by the source to `0x…` hash strings
(`String.prototype.toLowerCase`, restricted here to its ASCII action). -/
def lowerStr (s : Str) : Str := s.map Char.toLower

-- ─────────────────────────────────────────────────────────────────────────────
-- keccak-256 (the `keccak_256` of `@noble/hashes/sha3`, implemented
-- concretely; 64-bit lanes are `Nat` values kept below `2^64`).
-- ─────────────────────────────────────────────────────────────────────────────

/-- Rotate a 64-bit lane left by `n` bits. -/
def rotl64 (x n : Nat) : Nat :=
  ((x <<< n) ||| (x >>> (64 - n))) &&& (2 ^ 64 - 1)

/-- Lane `i` of a Keccak state (25 lanes, index `x + 5*y`). -/
def lane (s : List Nat) (i : Nat) : Nat := s.getD i 0

/-- Keccak θ step. -/
def keccakTheta (s : List Nat) : List Nat :=
  let C := (List.range 5).map
    (fun x => lane s x ^^^ lane s (x + 5) ^^^ lane s (x + 10) ^^^ lane s (x + 15) ^^^ lane s (x + 20))
  let D := (List.range 5).map
    (fun x => C.getD ((x + 4) % 5) 0 ^^^ rotl64 (C.getD ((x + 1) % 5) 0) 1)
  (List.range 25).map (fun i => lane s i ^^^ D.getD (i % 5) 0)

/-- Source lane for each destination lane under the π permutation. -/
def keccakPiSrc : List Nat :=
  [0, 6, 12, 18, 24, 3, 9, 10, 16, 22, 1, 7, 13, 19, 20, 4, 5, 11, 17, 23, 2, 8, 14, 15, 21]

/-- ρ rotation amount for each destination lane. -/
def keccakPiRot : List Nat :=
  [0, 44, 43, 21, 14, 28, 20, 3, 45, 61, 1, 6, 25, 8, 18, 27, 36, 10, 15, 56, 62, 55, 39, 41, 2]

/-- Keccak ρ and π steps combined. -/
def keccakRhoPi (s : List Nat) : List Nat :=
  (List.range 25).map (fun d => rotl64 (lane s (keccakPiSrc.getD d 0)) (keccakPiRot.getD d 0))

/-- Keccak χ step. -/
def keccakChi (s : List Nat) : List Nat :=
  (List.range 25).map (fun i =>
    let row := 5 * (i / 5)
    let x := i % 5
    lane s i ^^^ (((2 ^ 64 - 1) ^^^ lane s (row + (x + 1) % 5)) &&& lane s (row + (x + 2) % 5)))

/-- Keccak round constants. -/
def keccakRC : List Nat :=
  [0x0000000000000001, 0x0000000000008082, 0x800000000000808a, 0x8000000080008000,
   0x000000000000808b, 0x0000000080000001, 0x8000000080008081, 0x8000000000008009,
   0x000000000000008a, 0x0000000000000088, 0x0000000080008009, 0x000000008000000a,
   0x000000008000808b, 0x800000000000008b, 0x8000000000008089, 0x8000000000008003,
   0x8000000000008002, 0x8000000000000080, 0x000000000000800a, 0x800000008000000a,
   0x8000000080008081, 0x8000000000008080, 0x0000000080000001, 0x8000000080008008]

/-- Keccak ι step. -/
def keccakIota (rc : Nat) (s : List Nat) : List Nat :=
  match s with
  | [] => []
  | a :: rest => (a ^^^ rc) :: rest

/-- The Keccak-f[1600] permutation (24 rounds). -/
def keccakF (s : List Nat) : List Nat :=
  keccakRC.foldl (fun st rc => keccakIota rc (keccakChi (keccakRhoPi (keccakTheta st)))) s

/-- Value of up to eight little-endian bytes as one 64-bit lane. -/
def leBytesToNat (l : List Nat) : Nat := l.foldr (fun b acc => b + 256 * acc) 0

/-- Absorb one 136-byte rate block into the state and permute. -/
def absorbBlock (s : List Nat) (block : List Nat) : List Nat :=
  keccakF ((List.range 25).map
    (fun i => lane s i ^^^ (if i < 17 then leBytesToNat ((block.drop (8 * i)).take 8) else 0)))

/-- Keccak (pre-SHA-3) padding: `0x01 … 0x80`, as used by Ethereum's keccak-256. -/
def keccakPad (msg : List Nat) : List Nat :=
  let q := 136 - msg.length % 136
  if q = 1 then msg ++ [0x81]
  else msg ++ [0x01] ++ List.replicate (q - 2) 0 ++ [0x80]

/-- Split a byte string into 136-byte blocks (structural fuel so the kernel
can evaluate it). -/
def toBlocksAux : Nat → List Nat → List (List Nat)
  | 0, _ => []
  | _ + 1, [] => []
  | fuel + 1, a :: rest => ((a :: rest).take 136) :: toBlocksAux fuel ((a :: rest).drop 136)

/-- Split a byte string into 136-byte blocks. -/
def toBlocks (l : List Nat) : List (List Nat) := toBlocksAux (l.length + 1) l

/-- keccak-256 of a byte string — the `keccak_256` function of
`@noble/hashes/sha3` (matches the standard test vectors, e.g.
`keccak256 [] = 0xc5d24601…`). -/
def keccak256 (msg : List Nat) : List Nat :=
  let s := (toBlocks (keccakPad msg)).foldl absorbBlock (List.replicate 25 0)
  (List.range 32).map (fun j => (lane s (j / 8) >>> (8 * (j % 8))) % 256)

-- ─────────────────────────────────────────────────────────────────────────────
-- Shared types (cre-workflow/src/types.ts)
-- ─────────────────────────────────────────────────────────────────────────────

/-- Maps to `CREVerifier.VerdictOutcome` (types.ts). -/
inductive VerdictOutcome
  | FAVOR_PARTY_A
  | FAVOR_PARTY_B
  | INSUFFICIENT_EVIDENCE
  | NO_CONSENSUS
  | CIRCUIT_BREAKER
deriving DecidableEq, Repr

/-- Numeric encoding of outcomes for on-chain submission (`VerdictOutcomeIndex`). -/
def VerdictOutcomeIndex : VerdictOutcome → Nat
  | .FAVOR_PARTY_A => 0
  | .FAVOR_PARTY_B => 1
  | .INSUFFICIENT_EVIDENCE => 2
  | .NO_CONSENSUS => 3
  | .CIRCUIT_BREAKER => 4

/-- The TypeScript enum value strings of `VerdictOutcome`. -/
def outcomeName : VerdictOutcome → Str
  | .FAVOR_PARTY_A => "FAVOR_PARTY_A".data
  | .FAVOR_PARTY_B => "FAVOR_PARTY_B".data
  | .INSUFFICIENT_EVIDENCE => "INSUFFICIENT_EVIDENCE".data
  | .NO_CONSENSUS => "NO_CONSENSUS".data
  | .CIRCUIT_BREAKER => "CIRCUIT_BREAKER".data

/-- Maps to `CREVerifier.ModelVote` (types.ts). -/
structure ModelVote where
  modelId : Str
  vote : VerdictOutcome
  confidenceBps : Nat
  reasoning : Str
  reasoningHash : Str
deriving DecidableEq, Repr

/-- Maps to `CREVerifier.WorkflowVerdict` (types.ts); `modelVotes` is the
source's exactly-3 tuple `[ModelVote, ModelVote, ModelVote]`. -/
structure WorkflowVerdict where
  disputeId : Str
  finalOutcome : VerdictOutcome
  modelVotes : ModelVote × ModelVote × ModelVote
  consensusCount : Nat
  evidenceHashA : Str
  evidenceHashB : Str
  executedAt : Nat
  workflowRunId : Str
deriving DecidableEq, Repr

/-- Dispute data fetched from `ArbitrationRegistry` (types.ts). -/
structure DisputeRecord where
  id : Str
  partyA : Str
  partyB : Str
  description : Str
  amount : Str
  status : Str
  evidenceHashA : Str
  evidenceHashB : Str
  createdAt : Nat
deriving DecidableEq, Repr

/-- Prompt sent identically to all 3 AI models (types.ts). -/
structure ArbitrationPrompt where
  disputeId : Str
  description : Str
  partyAAddress : Str
  partyBAddress : Str
  evidenceA : Str
  evidenceB : Str
deriving DecidableEq, Repr

/-- Raw AI model response before parsing (types.ts). -/
structure RawModelResponse where
  modelId : Str
  rawText : Str
  durationMs : Nat
  error : Option Str
deriving DecidableEq, Repr

/-- Parsed AI verdict (types.ts).  `confidencePct` is a JavaScript number;
every value the parser actually produces is an integer in `[0, 100]`, modelled
here as a rational. -/
structure ParsedModelVerdict where
  modelId : Str
  vote : VerdictOutcome
  confidencePct : ℚ
  reasoning : Str
  parseSuccess : Bool
deriving DecidableEq, Repr

/-- Evidence fetched via Confidential HTTP (types.ts). -/
structure Evidence where
  partyAddress : Str
  partyLabel : Char
  content : Str
  submittedAt : Nat
  contentHash : Str
deriving DecidableEq, Repr

/-- Final workflow output (types.ts). -/
structure WorkflowOutput where
  disputeId : Str
  calldata : Str
  verdictSummary : Str
  signature : Str
deriving DecidableEq, Repr

/-- Decimal rendering of a natural number (JavaScript number-to-string for
the integers appearing in log/reasoning strings). -/
def natToDec (n : Nat) : Str := (toString n).data

/-- Decimal rendering of an integer. -/
def intToDec (i : ℤ) : Str := (toString i).data

/-- Rendering of a JavaScript number modelled as a rational (used only inside
human-readable reasoning strings; integral values print with no fraction,
exactly as in JavaScript). -/
def ratToDec (q : ℚ) : Str := (toString q).data

/-- Model of JavaScript `x.toFixed(1)` applied to `bps / 100` with `bps` an
integer (used only inside human-readable reasoning strings). -/
def fmtBpsFixed1 (bps : ℤ) : Str :=
  let t : ℤ := round ((bps : ℚ) / 10)
  intToDec (t / 10) ++ ".".data ++ natToDec (t % 10).toNat

/-- Model of JavaScript `x.toFixed(0)` applied to `bps / 100` with `bps` a
natural number (used only inside the human-readable verdict summary). -/
def fmtBpsFixed0 (bps : Nat) : Str :=
  natToDec (round ((bps : ℚ) / 100)).toNat

-- ─────────────────────────────────────────────────────────────────────────────
-- Verdict signer (cre-workflow/src/signer.ts)
-- ─────────────────────────────────────────────────────────────────────────────

/-- signer.ts `pad32`: strip `0x` and left-pad the hex value to 64 characters. -/
def pad32 (hex : Str) : Str := padStartChars 64 '0' (replaceFirst0x hex)

/-- signer.ts `encodeUint` (uint256): `BigInt(value).toString(16).padStart(64, '0')`. -/
def encodeUint (value : Nat) : Str := padStartChars 64 '0' (natToHex value)

/-- signer.ts `encodeBytes32`: `pad32(hex).slice(0, 64).padEnd(64, '0')`. -/
def encodeBytes32 (hex : Str) : Str := padEndChars 64 '0' ((pad32 hex).take 64)

/-- signer.ts `encodeUint8` (same body as `encodeUint` in the source). -/
def encodeUint8 (value : Nat) : Str := padStartChars 64 '0' (natToHex value)

/-- signer.ts `encodeUint16` (same body as `encodeUint` in the source). -/
def encodeUint16 (value : Nat) : Str := padStartChars 64 '0' (natToHex value)

/-- signer.ts `keccak256Str`: `'0x' + bytesToHex(keccak_256(utf8(text)))`. -/
def keccak256Str (text : Str) : Str :=
  '0' :: 'x' :: bytesToHex (keccak256 (utf8Encode text))

/-- The four 32-byte hex blocks `computeVerdictHash` pushes for one model vote:
`keccak256(modelId)`, vote index, confidence (bps), `encodeBytes32(keccak256Str(reasoning))`. -/
def modelVoteParts (vote : ModelVote) : List Str :=
  [bytesToHex (keccak256 (utf8Encode vote.modelId)),
   encodeUint8 (VerdictOutcomeIndex vote.vote),
   encodeUint16 vote.confidenceBps,
   encodeBytes32 (keccak256Str vote.reasoning)]

/-- The `parts` array built by signer.ts `computeVerdictHash`, in push order. -/
def verdictParts (verdict : WorkflowVerdict) : List Str :=
  [encodeBytes32 verdict.disputeId,
   encodeUint8 (VerdictOutcomeIndex verdict.finalOutcome)]
  ++ modelVoteParts verdict.modelVotes.1
  ++ modelVoteParts verdict.modelVotes.2.1
  ++ modelVoteParts verdict.modelVotes.2.2
  ++ [encodeUint8 verdict.consensusCount,
      encodeBytes32 verdict.evidenceHashA,
      encodeBytes32 verdict.evidenceHashB,
      encodeUint verdict.executedAt,
      encodeBytes32 verdict.workflowRunId]

/-- signer.ts `computeVerdictHash`, the hex string `parts.join('')` before
`hexToBytes`. -/
def verdictPreimageHex (verdict : WorkflowVerdict) : Str :=
  (verdictParts verdict).flatten

/-- signer.ts `computeVerdictHash`: keccak-256 of the concatenated encoded
fields. -/
def computeVerdictHash (verdict : WorkflowVerdict) : List Nat :=
  keccak256 (hexToBytes (verdictPreimageHex verdict))

/-- The `(r, s, recovery)` triple produced by `@noble/curves` `secp256k1.sign`.
The curve library is external to the repository, so `signVerdict` below is
parameterised by the signing function. -/
structure SecpSignature where
  r : Nat
  s : Nat
  recovery : Nat
deriving DecidableEq, Repr

/-- signer.ts `ETH_SIGNED_MESSAGE_PREFIX`. -/
def ETH_SIGNED_MESSAGE_PREFIX : Str := "\x19Ethereum Signed Message:\n32".data

/-- signer.ts `signVerdict`: hash the verdict, wrap with the Ethereum signed
message prefix, keccak again, sign, and encode `r(32) || s(32) || v(1)` with
`v = recovery + 27`. -/
def signVerdict (secpSign : List Nat → List Nat → SecpSignature)
    (verdict : WorkflowVerdict) (operatorPrivKeyHex : Str) : Str :=
  let verdictHash := computeVerdictHash verdict
  let ethHash := keccak256 (utf8Encode ETH_SIGNED_MESSAGE_PREFIX ++ verdictHash)
  let privKeyBytes := hexToBytes (replaceFirst0x operatorPrivKeyHex)
  let sig := secpSign ethHash privKeyBytes
  let r := padStartChars 64 '0' (natToHex sig.r)
  let s := padStartChars 64 '0' (natToHex sig.s)
  let v := padStartChars 2 '0' (natToHex (sig.recovery + 27))
  '0' :: 'x' :: (r ++ s ++ v)

/-- signer.ts `computeFunctionSelector`: first 4 bytes (8 hex characters) of
the keccak-256 of the signature string. -/
def computeFunctionSelector (signature : Str) : Str :=
  (bytesToHex (keccak256 (utf8Encode signature))).take 8

/-- The `submitVerdict` function signature string hard-coded in signer.ts. -/
def SUBMIT_VERDICT_SIGNATURE : Str :=
  "submitVerdict((bytes32,uint8,(string,uint8,uint16,bytes32)[3],uint8,bytes32,bytes32,uint256,bytes32),bytes)".data

/-- signer.ts `encodeSubmitVerdictCalldata`. -/
def encodeSubmitVerdictCalldata (verdict : WorkflowVerdict) (signature : Str) : Str :=
  let selector := computeFunctionSelector SUBMIT_VERDICT_SIGNATURE
  let sigBytes := hexToBytes (replaceFirst0x signature)
  let sigLengthHex := encodeUint sigBytes.length
  let sigDataHex := padEndChars ((sigBytes.length + 31) / 32 * 64) '0' (bytesToHex sigBytes)
  let voteBlocks := fun (v : ModelVote) =>
    bytesToHex (keccak256 (utf8Encode v.modelId))
    ++ encodeUint8 (VerdictOutcomeIndex v.vote)
    ++ encodeUint16 v.confidenceBps
    ++ encodeBytes32 (keccak256Str v.reasoning)
  '0' :: 'x' ::
    (selector
     ++ encodeUint 64
     ++ encodeUint (64 + 10 * 32 + 3 * 4 * 32)
     ++ encodeBytes32 verdict.disputeId
     ++ encodeUint8 (VerdictOutcomeIndex verdict.finalOutcome)
     ++ voteBlocks verdict.modelVotes.1
     ++ voteBlocks verdict.modelVotes.2.1
     ++ voteBlocks verdict.modelVotes.2.2
     ++ encodeUint8 verdict.consensusCount
     ++ encodeBytes32 verdict.evidenceHashA
     ++ encodeBytes32 verdict.evidenceHashB
     ++ encodeUint verdict.executedAt
     ++ encodeBytes32 verdict.workflowRunId
     ++ sigLengthHex
     ++ sigDataHex)

-- ─────────────────────────────────────────────────────────────────────────────
-- On-chain submission helpers (cre-workflow/src/chain.ts)
-- ─────────────────────────────────────────────────────────────────────────────

/-- chain.ts `submitVerdictOnChain` step 3: the operator address derived from
an uncompressed 65-byte public key — keccak-256 of the key without its `0x04`
prefix byte, last 20 bytes, `0x`-prefixed. -/
def operatorAddressOfPubKey (pubKey : List Nat) : Str :=
  '0' :: 'x' :: ((bytesToHex (keccak256 (pubKey.drop 1))).drop 24)

/-- chain.ts `buildWorkflowOutput`: calldata plus a human-readable summary. -/
def buildWorkflowOutput (verdict : WorkflowVerdict) (signature : Str) : WorkflowOutput :=
  let calldata := encodeSubmitVerdictCalldata verdict signature
  let votesList := [verdict.modelVotes.1, verdict.modelVotes.2.1, verdict.modelVotes.2.2]
  let verdictSummary := List.intercalate (" | ".data)
    [("Dispute: ".data) ++ verdict.disputeId.take 10 ++ ("...".data),
     ("Outcome: ".data) ++ outcomeName verdict.finalOutcome,
     ("Consensus: ".data) ++ natToDec verdict.consensusCount ++ ("/3".data),
     ("Models: ".data) ++ List.intercalate (", ".data)
       (votesList.map (fun v =>
         v.modelId ++ ("→".data) ++ outcomeName v.vote
         ++ ("(".data) ++ fmtBpsFixed0 v.confidenceBps ++ ("%)".data))),
     ("RunId: ".data) ++ verdict.workflowRunId.take 10 ++ ("...".data)]
  { disputeId := verdict.disputeId
    calldata := calldata
    verdictSummary := verdictSummary
    signature := signature }

-- ─────────────────────────────────────────────────────────────────────────────
-- Consensus engine (cre-workflow/src/consensus.ts)
-- ─────────────────────────────────────────────────────────────────────────────

/-- consensus.ts `ConsensusResult`.  `voteCounts` is the source's
`Record<VerdictOutcome, number>`, modelled as a function. -/
structure ConsensusResult where
  finalOutcome : VerdictOutcome
  consensusCount : Nat
  aggregateConfidenceBps : ℤ
  voteCounts : VerdictOutcome → Nat
  reasoning : Str

/-- consensus.ts `CONSENSUS_THRESHOLD` (2 out of 3). -/
def CONSENSUS_THRESHOLD : Nat := 2

/-- One iteration of the vote-counting loop: `voteCounts[v.vote]++`. -/
def bumpCount (f : VerdictOutcome → Nat) (o : VerdictOutcome) : VerdictOutcome → Nat :=
  fun o2 => if o2 = o then f o2 + 1 else f o2

/-- One iteration of the confidence-collecting loop:
`confidenceByOutcome[v.vote].push(v.confidencePct)`. -/
def pushConf (f : VerdictOutcome → List ℚ) (o : VerdictOutcome) (c : ℚ) :
    VerdictOutcome → List ℚ :=
  fun o2 => if o2 = o then f o2 ++ [c] else f o2

/-- The `voteCounts` record built by the counting loop of `applyConsensus`. -/
def countVotes (votes : List ParsedModelVerdict) : VerdictOutcome → Nat :=
  votes.foldl (fun f v => bumpCount f v.vote) (fun _ => 0)

/-- The `confidenceByOutcome` record built by the counting loop of
`applyConsensus`. -/
def confidenceByOutcome (votes : List ParsedModelVerdict) : VerdictOutcome → List ℚ :=
  votes.foldl (fun f v => pushConf f v.vote v.confidencePct) (fun _ => [])

/-- The fixed outcome check order of `applyConsensus` (`outcomesToCheck`). -/
def outcomesToCheck : List VerdictOutcome :=
  [.FAVOR_PARTY_A, .FAVOR_PARTY_B, .INSUFFICIENT_EVIDENCE]

/-- The result `applyConsensus` returns from its Rule 1 (circuit breaker) branch. -/
def circuitBreakerResult (votes : List ParsedModelVerdict)
    (voteCounts : VerdictOutcome → Nat) : ConsensusResult :=
  let failedModels := List.intercalate (", ".data)
    ((votes.filter (fun v => v.vote == VerdictOutcome.CIRCUIT_BREAKER)).map (fun v => v.modelId))
  { finalOutcome := .CIRCUIT_BREAKER
    consensusCount := voteCounts .CIRCUIT_BREAKER
    aggregateConfidenceBps := 0
    voteCounts := voteCounts
    reasoning := ("Circuit breaker: ".data) ++ failedModels
      ++ (" failed to return a valid verdict. Funds refunded for safety.".data) }

/-- The result `applyConsensus` returns when `outcome` reaches the 2/3
threshold (the body of the Rule 2 loop). -/
def thresholdResult (votes : List ParsedModelVerdict)
    (voteCounts : VerdictOutcome → Nat) (confByOutcome : VerdictOutcome → List ℚ)
    (outcome : VerdictOutcome) : ConsensusResult :=
  let count := voteCounts outcome
  let confidences := confByOutcome outcome
  let avgConfidence : ℚ := confidences.sum / (confidences.length : ℚ)
  let avgConfidenceBps : ℤ := round (avgConfidence * 100)
  let agreeing := List.intercalate (", ".data)
    ((votes.filter (fun v => v.vote == outcome)).map
      (fun v => v.modelId ++ (" (".data) ++ ratToDec v.confidencePct ++ ("%)".data)))
  let dissenting := List.intercalate (", ".data)
    ((votes.filter (fun v => !(v.vote == outcome))).map
      (fun v => v.modelId ++ ("→".data) ++ outcomeName v.vote
        ++ (" (".data) ++ ratToDec v.confidencePct ++ ("%)".data)))
  { finalOutcome := outcome
    consensusCount := count
    aggregateConfidenceBps := avgConfidenceBps
    voteCounts := voteCounts
    reasoning := List.intercalate (" | ".data)
      [("Consensus: ".data) ++ natToDec count ++ ("/3 models voted ".data) ++ outcomeName outcome,
       ("Agreeing: ".data) ++ agreeing,
       (if dissenting ≠ [] then ("Dissenting: ".data) ++ dissenting else "Unanimous".data),
       ("Aggregate confidence: ".data) ++ fmtBpsFixed1 avgConfidenceBps ++ ("%".data)] }

/-- The result `applyConsensus` returns from its Rule 3 (no consensus) branch. -/
def noConsensusResult (votes : List ParsedModelVerdict)
    (voteCounts : VerdictOutcome → Nat) : ConsensusResult :=
  let voteBreakdown := List.intercalate (", ".data)
    (votes.map (fun v => v.modelId ++ ("→".data) ++ outcomeName v.vote))
  { finalOutcome := .NO_CONSENSUS
    consensusCount := 1
    aggregateConfidenceBps := 0
    voteCounts := voteCounts
    reasoning := ("No consensus: ".data) ++ voteBreakdown
      ++ (". Threshold: ".data) ++ natToDec CONSENSUS_THRESHOLD
      ++ ("/3. Funds returned to both parties.".data) }

/-- The Rule 2 `for (const outcome of outcomesToCheck)` loop of
`applyConsensus`, with its early `return`. -/
def checkOutcomesLoop (votes : List ParsedModelVerdict)
    (voteCounts : VerdictOutcome → Nat) (confByOutcome : VerdictOutcome → List ℚ) :
    List VerdictOutcome → Option ConsensusResult
  | [] => none
  | outcome :: rest =>
    if CONSENSUS_THRESHOLD ≤ voteCounts outcome then
      some (thresholdResult votes voteCounts confByOutcome outcome)
    else checkOutcomesLoop votes voteCounts confByOutcome rest

/-- consensus.ts `applyConsensus`.  The source throws on a vote list whose
length is not 3; the throw is modelled by `Except.error`. -/
def applyConsensus (votes : List ParsedModelVerdict) : Except Str ConsensusResult :=
  if votes.length ≠ 3 then
    .error (("Expected exactly 3 votes, got ".data) ++ natToDec votes.length)
  else
    let voteCounts := countVotes votes
    let confByOutcome := confidenceByOutcome votes
    if 0 < voteCounts .CIRCUIT_BREAKER then
      .ok (circuitBreakerResult votes voteCounts)
    else
      match checkOutcomesLoop votes voteCounts confByOutcome outcomesToCheck with
      | some result => .ok result
      | none => .ok (noConsensusResult votes voteCounts)

/-- consensus.ts `simulateWhatIf`: recompute consensus on a copy of the vote
array in which vote `modelIndex` is replaced by a copy with the hypothetical
vote (`modified[modelIndex] = { ...modified[modelIndex], vote }`).  The source
is only ever called with `modelIndex < votes.length`; an out-of-range index is
modelled as leaving the copied array unchanged. -/
def simulateWhatIf (votes : List ParsedModelVerdict) (modelIndex : Nat)
    (hypotheticalVote : VerdictOutcome) : Except Str ConsensusResult :=
  match votes.get? modelIndex with
  | some v => applyConsensus (votes.set modelIndex { v with vote := hypotheticalVote })
  | none => applyConsensus votes

namespace Frontend

/-- frontend consensus.ts `applyConsensus` Rule 1 result (shorter reasoning
string than the workflow copy, otherwise identical). -/
def circuitBreakerResult (votes : List ParsedModelVerdict)
    (voteCounts : VerdictOutcome → Nat) : ConsensusResult :=
  let failedModels := List.intercalate (", ".data)
    ((votes.filter (fun v => v.vote == VerdictOutcome.CIRCUIT_BREAKER)).map (fun v => v.modelId))
  { finalOutcome := .CIRCUIT_BREAKER
    consensusCount := voteCounts .CIRCUIT_BREAKER
    aggregateConfidenceBps := 0
    voteCounts := voteCounts
    reasoning := ("Circuit breaker: ".data) ++ failedModels ++ (" failed.".data) }

/-- frontend consensus.ts threshold branch result. -/
def thresholdResult (votes : List ParsedModelVerdict)
    (voteCounts : VerdictOutcome → Nat) (confByOutcome : VerdictOutcome → List ℚ)
    (outcome : VerdictOutcome) : ConsensusResult :=
  let count := voteCounts outcome
  let confidences := confByOutcome outcome
  let avgConfidence : ℚ := confidences.sum / (confidences.length : ℚ)
  let avgConfidenceBps : ℤ := round (avgConfidence * 100)
  let agreeing := List.intercalate (", ".data)
    ((votes.filter (fun v => v.vote == outcome)).map
      (fun v => v.modelId ++ ("(".data) ++ ratToDec v.confidencePct ++ ("%)".data)))
  let dissenting := List.intercalate (", ".data)
    ((votes.filter (fun v => !(v.vote == outcome))).map
      (fun v => v.modelId ++ ("→".data) ++ outcomeName v.vote))
  { finalOutcome := outcome
    consensusCount := count
    aggregateConfidenceBps := avgConfidenceBps
    voteCounts := voteCounts
    reasoning := natToDec count ++ ("/3 models voted ".data) ++ outcomeName outcome
      ++ (". Agreeing: ".data) ++ agreeing
      ++ (if dissenting ≠ [] then (". Dissenting: ".data) ++ dissenting else [])
      ++ (".".data) }

/-- frontend consensus.ts no-consensus result. -/
def noConsensusResult (votes : List ParsedModelVerdict)
    (voteCounts : VerdictOutcome → Nat) : ConsensusResult :=
  let voteBreakdown := List.intercalate (", ".data)
    (votes.map (fun v => v.modelId ++ ("→".data) ++ outcomeName v.vote))
  { finalOutcome := .NO_CONSENSUS
    consensusCount := 1
    aggregateConfidenceBps := 0
    voteCounts := voteCounts
    reasoning := ("No consensus: ".data) ++ voteBreakdown ++ (". Funds returned.".data) }

/-- frontend consensus.ts threshold loop. -/
def checkOutcomesLoop (votes : List ParsedModelVerdict)
    (voteCounts : VerdictOutcome → Nat) (confByOutcome : VerdictOutcome → List ℚ) :
    List VerdictOutcome → Option ConsensusResult
  | [] => none
  | outcome :: rest =>
    if CONSENSUS_THRESHOLD ≤ voteCounts outcome then
      some (thresholdResult votes voteCounts confByOutcome outcome)
    else checkOutcomesLoop votes voteCounts confByOutcome rest

/-- frontend/src/lib/cre/consensus.ts `applyConsensus`: identical logic to the
workflow copy except that it has no length-3 guard and produces shorter
reasoning strings.  The counting loop is literally the same code, so the
`countVotes`/`confidenceByOutcome` definitions are shared. -/
def applyConsensus (votes : List ParsedModelVerdict) : ConsensusResult :=
  let voteCounts := countVotes votes
  let confByOutcome := confidenceByOutcome votes
  if 0 < voteCounts .CIRCUIT_BREAKER then
    circuitBreakerResult votes voteCounts
  else
    match checkOutcomesLoop votes voteCounts confByOutcome outcomesToCheck with
    | some result => result
    | none => noConsensusResult votes voteCounts

end Frontend

-- ─────────────────────────────────────────────────────────────────────────────
-- Model client (cre-workflow/src/models.ts)
-- ─────────────────────────────────────────────────────────────────────────────

/-- The shape `parseModelResponse` casts the parsed JSON to:
`{ verdict, confidence, reasoning }`.  `JSON.parse` itself is a JavaScript
builtin, external to the repository; `parseModelResponse` below is
parameterised by it (an exception carries its message in `Except.error`). -/
structure ModelJsonPayload where
  verdict : Str
  confidence : ℚ
  reasoning : Str
deriving DecidableEq, Repr

/-- Model of the regex extraction `raw.rawText.match(/\{[\s\S]*\}/)`: the
(greedy) match runs from the first `{` through the last `}` at or after it;
`none` when there is no such pair. -/
def extractJson (l : Str) : Option Str :=
  let fromBrace := l.dropWhile (fun c => !(c == '{'))
  match fromBrace.reverse.findIdx? (fun c => c == '}') with
  | none => none
  | some k =>
    if fromBrace.length - k < 2 then none
    else some (fromBrace.take (fromBrace.length - k))

/-- The `allowedVerdicts` membership test of `parseModelResponse`, fused with
the subsequent cast of the verdict string to the enum: the three allowed
names map to their outcomes, anything else (including `NO_CONSENSUS` and
`CIRCUIT_BREAKER`) is rejected. -/
def outcomeOfName (s : Str) : Option VerdictOutcome :=
  if s = "FAVOR_PARTY_A".data then some .FAVOR_PARTY_A
  else if s = "FAVOR_PARTY_B".data then some .FAVOR_PARTY_B
  else if s = "INSUFFICIENT_EVIDENCE".data then some .INSUFFICIENT_EVIDENCE
  else none

/-- models.ts `parseModelResponse`, parameterised by the external `JSON.parse`. -/
def parseModelResponse (jsonParse : Str → Except Str ModelJsonPayload)
    (modelId : Str) (raw : RawModelResponse) : ParsedModelVerdict :=
  match raw.error with
  | some err =>
    { modelId := modelId
      vote := .CIRCUIT_BREAKER
      confidencePct := 0
      reasoning := ("Model failed: ".data) ++ err
      parseSuccess := false }
  | none =>
    match extractJson raw.rawText with
    | none =>
      { modelId := modelId
        vote := .CIRCUIT_BREAKER
        confidencePct := 0
        reasoning := ("Parse error: No JSON found in response: ".data) ++ raw.rawText.take 200
        parseSuccess := false }
    | some jsonText =>
      match jsonParse jsonText with
      | .error msg =>
        { modelId := modelId
          vote := .CIRCUIT_BREAKER
          confidencePct := 0
          reasoning := ("Parse error: ".data) ++ msg
          parseSuccess := false }
      | .ok parsed =>
        match outcomeOfName parsed.verdict with
        | none =>
          { modelId := modelId
            vote := .CIRCUIT_BREAKER
            confidencePct := 0
            reasoning := ("Parse error: Invalid verdict value: ".data) ++ parsed.verdict
            parseSuccess := false }
        | some vote =>
          let confidence : ℤ := max 0 (min 100 (round parsed.confidence))
          { modelId := modelId
            vote := vote
            confidencePct := (confidence : ℚ)
            reasoning := if parsed.reasoning = [] then "No reasoning provided".data
                         else parsed.reasoning
            parseSuccess := true }

/-- models.ts `queryAllModels`, its pure tail: the three raw transport results
(whatever order the concurrent calls complete in, `Promise.all` hands them
back in registration order) are parsed in the fixed order Claude, GPT-4o,
Mistral. -/
def queryAllModels (jsonParse : Str → Except Str ModelJsonPayload)
    (claudeRaw gpt4Raw mistralRaw : RawModelResponse) :
    ParsedModelVerdict × ParsedModelVerdict × ParsedModelVerdict :=
  (parseModelResponse jsonParse ("claude-opus-4-6".data) claudeRaw,
   parseModelResponse jsonParse ("gpt-4o".data) gpt4Raw,
   parseModelResponse jsonParse ("mistral-large-2411".data) mistralRaw)

-- ─────────────────────────────────────────────────────────────────────────────
-- Evidence fetcher (cre-workflow/src/evidence.ts)
-- ─────────────────────────────────────────────────────────────────────────────

/-- evidence.ts `keccak256Hex` (same body as signer.ts `keccak256Str`). -/
def keccak256Hex (data : Str) : Str :=
  '0' :: 'x' :: bytesToHex (keccak256 (utf8Encode data))

/-- The JSON body returned by the evidence server
(`{ content, submittedAt, partyAddress }`). -/
structure EvidencePayload where
  content : Str
  submittedAt : Nat
  partyAddress : Str
deriving DecidableEq, Repr

/-- The transport-level result of one evidence fetch, with the body already
decoded to its JSON shape (the HTTP/base64/JSON plumbing is external). -/
structure EvidenceHttpResponse where
  statusCode : Nat
  body : EvidencePayload
deriving DecidableEq, Repr

/-- evidence.ts `fetchEvidenceConfidential`: non-200 responses and hash
mismatches throw (modelled by `Except.error`); on success the verified
`Evidence` value is returned. -/
def fetchEvidenceConfidential (disputeId : Str) (partyLabel : Char)
    (partyAddress : Str) (expectedHash : Str)
    (response : EvidenceHttpResponse) : Except Str Evidence :=
  if response.statusCode ≠ 200 then
    .error (("Evidence server returned ".data) ++ natToDec response.statusCode
      ++ (" for party ".data) ++ [partyLabel]
      ++ (". Has evidence been submitted for this dispute?".data))
  else
    let evidenceData := response.body
    let computedHash := keccak256Hex evidenceData.content
    if lowerStr computedHash ≠ lowerStr expectedHash then
      .error (("Evidence integrity check FAILED for party ".data) ++ [partyLabel]
        ++ ("! On-chain hash: ".data) ++ expectedHash
        ++ (" | Computed hash: ".data) ++ computedHash
        ++ (". Evidence may have been tampered with — aborting arbitration.".data))
    else
      .ok { partyAddress := partyAddress
            partyLabel := partyLabel
            content := evidenceData.content
            submittedAt := evidenceData.submittedAt
            contentHash := computedHash }

/-- evidence.ts `fetchBothEvidences`: both parties' evidence is fetched
concurrently through `Promise.all`, which rejects as soon as either fetch
rejects; the model resolves a double failure to party A's error. -/
def fetchBothEvidences (dispute : DisputeRecord)
    (responseA responseB : EvidenceHttpResponse) : Except Str (Evidence × Evidence) :=
  match fetchEvidenceConfidential dispute.id 'A' dispute.partyA dispute.evidenceHashA responseA,
        fetchEvidenceConfidential dispute.id 'B' dispute.partyB dispute.evidenceHashB responseB with
  | .error e, _ => .error e
  | .ok _, .error e => .error e
  | .ok evidenceA, .ok evidenceB => .ok (evidenceA, evidenceB)

-- ─────────────────────────────────────────────────────────────────────────────
-- Orchestrator (cre-workflow/src/index.ts)
-- ─────────────────────────────────────────────────────────────────────────────

/-- The pipeline stages of `resolveDispute`, in source order, used to record
which stages a run actually reaches. -/
inductive WorkflowStep
  | fetchDispute
  | fetchEvidence
  | queryModels
  | consensusStep
  | signStep
  | emitOutput
deriving DecidableEq, Repr

/-- The sentinel `'0x' + '0'.repeat(64)` the orchestrator compares evidence
hash commitments against. -/
def zeroHash32 : Str := '0' :: 'x' :: List.replicate 64 '0'

/-- The I/O environment of one `resolveDispute` run: the dispute record the
registry call decodes to, the two evidence-server responses, the three raw
model responses, and the sources of the run's timestamp and run-id entropy
(`Date.now()`, `Math.random()`). -/
structure ResolveEnv where
  dispute : DisputeRecord
  evidenceResponseA : EvidenceHttpResponse
  evidenceResponseB : EvidenceHttpResponse
  claudeRaw : RawModelResponse
  gpt4Raw : RawModelResponse
  mistralRaw : RawModelResponse
  nowSec : Nat
  runNonce : Str
  operatorPrivKey : Str

/-- The `WorkflowVerdict.modelVotes` entry the orchestrator builds from one
parsed vote: `confidenceBps = Math.round(confidencePct * 100)`, reasoning hash
left empty (computed in the signer). -/
def toModelVote (v : ParsedModelVerdict) : ModelVote :=
  { modelId := v.modelId
    vote := v.vote
    confidenceBps := (round (v.confidencePct * 100)).toNat
    reasoning := v.reasoning
    reasoningHash := [] }

/-- index.ts `resolveDispute`: the linear pipeline
fetch-dispute → validate → fetch-evidence → query-models → consensus → sign →
emit-output.  Failures propagate as `Except.error` exactly where the source
throws; the second component records which stages were reached. -/
def resolveDispute (jsonParse : Str → Except Str ModelJsonPayload)
    (secpSign : List Nat → List Nat → SecpSignature)
    (disputeId : Str) (env : ResolveEnv) :
    Except Str WorkflowOutput × List WorkflowStep :=
  let dispute := env.dispute
  if dispute.status ≠ "IN_ARBITRATION".data then
    (.error (("Dispute ".data) ++ disputeId
      ++ (" is not ready for arbitration. Status: ".data) ++ dispute.status),
     [.fetchDispute])
  else if dispute.evidenceHashA = zeroHash32 ∨ dispute.evidenceHashB = zeroHash32 then
    (.error (("Dispute ".data) ++ disputeId
      ++ (" has missing evidence hashes — both parties must submit evidence first".data)),
     [.fetchDispute])
  else
    match fetchBothEvidences dispute env.evidenceResponseA env.evidenceResponseB with
    | .error e => (.error e, [.fetchDispute, .fetchEvidence])
    | .ok (evidenceA, evidenceB) =>
      let prompt : ArbitrationPrompt :=
        { disputeId := disputeId
          description := dispute.description
          partyAAddress := dispute.partyA
          partyBAddress := dispute.partyB
          evidenceA := evidenceA.content
          evidenceB := evidenceB.content }
      let (vote0, vote1, vote2) :=
        queryAllModels jsonParse env.claudeRaw env.gpt4Raw env.mistralRaw
      match applyConsensus [vote0, vote1, vote2] with
      | .error e => (.error e, [.fetchDispute, .fetchEvidence, .queryModels, .consensusStep])
      | .ok consensus =>
        let workflowRunId : Str :=
          '0' :: 'x' :: bytesToHex (keccak256 (utf8Encode (disputeId ++ env.runNonce)))
        let verdict : WorkflowVerdict :=
          { disputeId := disputeId
            finalOutcome := consensus.finalOutcome
            modelVotes := (toModelVote vote0, toModelVote vote1, toModelVote vote2)
            consensusCount := consensus.consensusCount
            evidenceHashA := dispute.evidenceHashA
            evidenceHashB := dispute.evidenceHashB
            executedAt := env.nowSec
            workflowRunId := workflowRunId }
        let signature := signVerdict secpSign verdict env.operatorPrivKey
        let output := buildWorkflowOutput verdict signature
        (.ok output,
         [.fetchDispute, .fetchEvidence, .queryModels, .consensusStep, .signStep, .emitOutput])

-- ─────────────────────────────────────────────────────────────────────────────
-- Well-formedness of verdict fields
-- ─────────────────────────────────────────────────────────────────────────────

/-- A canonical `bytes32` hex string: `0x` followed by exactly 64 lowercase
hex digits (the shape every such field has in the pipeline, where they come
from `keccak256Hex`/ABI decoding). -/
def isHexBytes32 (s : Str) : Bool :=
  decide (s.take 2 = ['0', 'x']) && ((s.drop 2).length == 64)
    && (s.drop 2).all (fun c => lowerHexChars.contains c)

/-- A fully populated `WorkflowVerdict` whose fields have their documented
machine widths: canonical `bytes32` strings, `uint16` confidences, `uint8`
consensus count, `uint256` timestamp. -/
def WellFormedVerdict (verdict : WorkflowVerdict) : Prop :=
  isHexBytes32 verdict.disputeId = true ∧
  isHexBytes32 verdict.evidenceHashA = true ∧
  isHexBytes32 verdict.evidenceHashB = true ∧
  isHexBytes32 verdict.workflowRunId = true ∧
  verdict.consensusCount < 2 ^ 8 ∧
  verdict.executedAt < 2 ^ 256 ∧
  verdict.modelVotes.1.confidenceBps < 2 ^ 16 ∧
  verdict.modelVotes.2.1.confidenceBps < 2 ^ 16 ∧
  verdict.modelVotes.2.2.confidenceBps < 2 ^ 16

instance (verdict : WorkflowVerdict) : Decidable (WellFormedVerdict verdict) := by
  unfold WellFormedVerdict
  infer_instance

-- ─────────────────────────────────────────────────────────────────────────────
-- Spec-side formalisation of the verdict hash (spec §4.4, claim C1)
-- ─────────────────────────────────────────────────────────────────────────────

/-- A number as one 32-byte big-endian word, the spec's "32-byte-encoded"
numeric field. -/
def specWord32 (n : Nat) : List Nat := bytesBE 32 n

/-- The 32 bytes a canonical `bytes32` hex string denotes, the spec's
"32-byte-encoded" `bytes32` field. -/
def specBytes32 (field : Str) : List Nat := hexToBytes (replaceFirst0x field)

/-- Spec §4.4 wording, for one model vote: the tuple
(keccak256 of the modelId string, vote enum index, confidence in basis
points, keccak256 of the vote's reasoning text), each 32 bytes. -/
def specModelVoteBytes (v : ModelVote) : List Nat :=
  keccak256 (utf8Encode v.modelId)
  ++ specWord32 (VerdictOutcomeIndex v.vote)
  ++ specWord32 v.confidenceBps
  ++ keccak256 (utf8Encode v.reasoning)

/-- Spec §4.4 wording: the concatenation, in the required field order, of the
32-byte-encoded fields disputeId, finalOutcome index, the 3 model-vote
tuples, consensusCount, evidenceHashA, evidenceHashB, executedAt,
workflowRunId. -/
def specVerdictBytes (verdict : WorkflowVerdict) : List Nat :=
  specBytes32 verdict.disputeId
  ++ specWord32 (VerdictOutcomeIndex verdict.finalOutcome)
  ++ specModelVoteBytes verdict.modelVotes.1
  ++ specModelVoteBytes verdict.modelVotes.2.1
  ++ specModelVoteBytes verdict.modelVotes.2.2
  ++ specWord32 verdict.consensusCount
  ++ specBytes32 verdict.evidenceHashA
  ++ specBytes32 verdict.evidenceHashB
  ++ specWord32 verdict.executedAt
  ++ specBytes32 verdict.workflowRunId

/-- Spec §4.4 wording: the verdict digest is the keccak-256 of that
concatenation. -/
def specVerdictDigest (verdict : WorkflowVerdict) : List Nat :=
  keccak256 (specVerdictBytes verdict)

-- ─────────────────────────────────────────────────────────────────────────────
-- The attributes of a verdict committed to by the hash (claim C2)
-- ─────────────────────────────────────────────────────────────────────────────

/-- What the verdict hash commits to for one model vote: the modelId and the
reasoning enter only through their keccak-256 digests. -/
structure CommittedVote where
  modelIdHash : List Nat
  voteIndex : Nat
  confidenceBps : Nat
  reasoningHash : List Nat
deriving DecidableEq, Repr

/-- The committed attributes of one model vote. -/
def committedVote (v : ModelVote) : CommittedVote :=
  { modelIdHash := keccak256 (utf8Encode v.modelId)
    voteIndex := VerdictOutcomeIndex v.vote
    confidenceBps := v.confidenceBps
    reasoningHash := keccak256 (utf8Encode v.reasoning) }

/-- Everything the byte sequence hashed by `computeVerdictHash` commits to. -/
structure CommittedFields where
  disputeId : Str
  finalOutcome : VerdictOutcome
  votes : CommittedVote × CommittedVote × CommittedVote
  consensusCount : Nat
  evidenceHashA : Str
  evidenceHashB : Str
  executedAt : Nat
  workflowRunId : Str
deriving DecidableEq, Repr

/-- The committed attributes of a verdict. -/
def committedFields (verdict : WorkflowVerdict) : CommittedFields :=
  { disputeId := verdict.disputeId
    finalOutcome := verdict.finalOutcome
    votes := (committedVote verdict.modelVotes.1,
              committedVote verdict.modelVotes.2.1,
              committedVote verdict.modelVotes.2.2)
    consensusCount := verdict.consensusCount
    evidenceHashA := verdict.evidenceHashA
    evidenceHashB := verdict.evidenceHashB
    executedAt := verdict.executedAt
    workflowRunId := verdict.workflowRunId }

-- ─────────────────────────────────────────────────────────────────────────────
-- ECDSA signing and public-key recovery.
-- Modelled from the spec: the secp256k1 arithmetic lives in the external
-- `@noble/curves` library (spec §2 "Crypto Primitives", §4.4 "Signing").
-- The model is ECDSA over an arbitrary commutative group `G` with scalar
-- field `ZMod n` and generator `g`; `xcoord` abstracts the x-coordinate-mod-n
-- map and `reconstructR` abstracts the recovery-id-guided reconstruction of
-- the nonce point from `r`.
-- ─────────────────────────────────────────────────────────────────────────────

/-- Modelled from the spec: the `(r, s)` pair ECDSA produces from private key
`d`, nonce `k` and message hash `z` — `r = x(k·G) mod n`,
`s = k⁻¹(z + r·d) mod n`. -/
def ecdsaSignModel {n : ℕ} [Fact (Nat.Prime n)] {G : Type} [AddCommGroup G]
    [Module (ZMod n) G] (g : G) (xcoord : G → ZMod n) (d k z : ZMod n) :
    ZMod n × ZMod n :=
  let r := xcoord (k • g)
  (r, k⁻¹ * (z + r * d))

/-- Modelled from the spec: public-key recovery from `(z, r, s)` and the
recovery id — reconstruct the nonce point `R` from `r` and the recovery id,
then `Q = r⁻¹·(s·R − z·G)`. -/
def ecdsaRecoverModel {n : ℕ} [Fact (Nat.Prime n)] {G : Type} [AddCommGroup G]
    [Module (ZMod n) G] (g : G) (reconstructR : ZMod n → Nat → G)
    (z r s : ZMod n) (recid : Nat) : G :=
  r⁻¹ • (s • reconstructR r recid - z • g)

-- ─────────────────────────────────────────────────────────────────────────────
-- Concrete fixtures used to instantiate the theorems below
-- ─────────────────────────────────────────────────────────────────────────────

/-- A canonically formed model vote. -/
def sampleModelVote : ModelVote :=
  { modelId := "claude-opus-4-6".data
    vote := .FAVOR_PARTY_A
    confidenceBps := 8700
    reasoning := "Clear evidence.".data
    reasoningHash := [] }

/-- A canonically formed, fully populated verdict. -/
def sampleVerdict : WorkflowVerdict :=
  { disputeId := '0' :: 'x' :: List.replicate 64 '1'
    finalOutcome := .FAVOR_PARTY_A
    modelVotes := (sampleModelVote,
      { sampleModelVote with modelId := "gpt-4o".data, confidenceBps := 8200 },
      { sampleModelVote with modelId := "mistral-large-2411".data, confidenceBps := 7600 })
    consensusCount := 3
    evidenceHashA := '0' :: 'x' :: List.replicate 64 'a'
    evidenceHashB := '0' :: 'x' :: List.replicate 64 'b'
    executedAt := 1700000000
    workflowRunId := '0' :: 'x' :: List.replicate 64 'c' }

/-- A dispute id of 65 hex digits — one digit longer than a `bytes32` value. -/
def overlongDisputeId1 : Str := '0' :: 'x' :: (List.replicate 64 'a' ++ ['b'])

/-- A second over-long dispute id agreeing with the first on the leading 64
hex digits but differing in the 65th. -/
def overlongDisputeId2 : Str := '0' :: 'x' :: (List.replicate 64 'a' ++ ['c'])

/-- `sampleVerdict` with the first over-long dispute id. -/
def truncVerdict1 : WorkflowVerdict := { sampleVerdict with disputeId := overlongDisputeId1 }

/-- `sampleVerdict` with the second over-long dispute id. -/
def truncVerdict2 : WorkflowVerdict := { sampleVerdict with disputeId := overlongDisputeId2 }

/-- A parsed vote fixture. -/
def mkVote (id : Str) (o : VerdictOutcome) (c : ℚ) : ParsedModelVerdict :=
  { modelId := id, vote := o, confidencePct := c, reasoning := "r".data, parseSuccess := true }

/-- The circuit-breaker sentinel vote fixture. -/
def cbVote : ParsedModelVerdict :=
  { modelId := "mistral-large-2411".data
    vote := .CIRCUIT_BREAKER
    confidencePct := 0
    reasoning := "Model failed: timeout".data
    parseSuccess := false }

/-- A dispute record in the awaiting-arbitration state.  Its evidence hash
commitments are non-zero but deliberately not the hash of the stored
evidence. -/
def tamperedDispute : DisputeRecord :=
  { id := '0' :: 'x' :: List.replicate 64 '1'
    partyA := "0xaaaa".data
    partyB := "0xbbbb".data
    description := "payment dispute".data
    amount := "1000000".data
    status := "IN_ARBITRATION".data
    evidenceHashA := "0xdead".data
    evidenceHashB := "0xbeef".data
    createdAt := 1 }

/-- An evidence-server response fixture. -/
def sampleEvidenceResponse : EvidenceHttpResponse :=
  { statusCode := 200
    body := { content := "hello".data, submittedAt := 1, partyAddress := "0xaaaa".data } }

/-- A raw model response fixture (transport error). -/
def rawErrResponse : RawModelResponse :=
  { modelId := "gpt-4o".data, rawText := [], durationMs := 5, error := some ("HTTP 500".data) }

/-- A raw model response fixture (no transport error). -/
def rawOkResponse : RawModelResponse :=
  { modelId := "gpt-4o".data, rawText := "verdict".data, durationMs := 5, error := none }

/-- An orchestrator environment whose evidence fails the integrity check. -/
def tamperedEnv : ResolveEnv :=
  { dispute := tamperedDispute
    evidenceResponseA := sampleEvidenceResponse
    evidenceResponseB := sampleEvidenceResponse
    claudeRaw := rawErrResponse
    gpt4Raw := rawErrResponse
    mistralRaw := rawErrResponse
    nowSec := 2
    runNonce := "17".data
    operatorPrivKey := "01".data }

/-- An orchestrator environment whose dispute is not awaiting arbitration. -/
def settledEnv : ResolveEnv :=
  { tamperedEnv with dispute := { tamperedDispute with status := "SETTLED".data } }

/-- A `JSON.parse` stand-in that always throws. -/
def jsonParseFail (s : Str) : Except Str ModelJsonPayload :=
  Except.error ("Unexpected token".data)

/-- A signing stand-in. -/
def secpSignZero (msgHash privKey : List Nat) : SecpSignature :=
  { r := 1, s := 1, recovery := 0 }

instance : Fact (Nat.Prime 7) := ⟨by norm_num⟩

-- ─────────────────────────────────────────────────────────────────────────────
-- Infrastructure lemmas: hex digits and byte strings
-- ─────────────────────────────────────────────────────────────────────────────

theorem hexDigitsAux_eq_digits (fuel n : Nat) (h : n ≤ fuel) :
    hexDigitsAux fuel n = Nat.digits 16 n := by
  induction fuel generalizing n with
  | zero =>
    interval_cases n
    simp [hexDigitsAux]
  | succ fuel ih =>
    by_cases hn : n = 0
    · simp [hexDigitsAux, hn]
    · rw [hexDigitsAux, if_neg hn, Nat.digits_def' (by norm_num) (Nat.pos_of_ne_zero hn),
        ih (n / 16) ?_]
      have : n / 16 < n := Nat.div_lt_self (Nat.pos_of_ne_zero hn) (by norm_num)
      omega

theorem hexDigits_eq_digits (n : Nat) : hexDigits n = Nat.digits 16 n :=
  hexDigitsAux_eq_digits n n le_rfl

theorem natToHexCore_zero : natToHexCore 0 = [] := by
  simp [natToHexCore, hexDigits_eq_digits]

theorem natToHexCore_step (n : Nat) (hn : n ≠ 0) :
    natToHexCore n = natToHexCore (n / 16) ++ [hexChar (n % 16)] := by
  simp only [natToHexCore, hexDigits_eq_digits,
    Nat.digits_def' (show (1:Nat) < 16 by norm_num) (Nat.pos_of_ne_zero hn)]
  simp

theorem natToHexCore_length_le (n k : Nat) (h : n < 16 ^ k) :
    (natToHexCore n).length ≤ k := by
  by_cases hn : n = 0
  · simp [hn, natToHexCore_zero]
  · simp only [natToHexCore, List.length_reverse, List.length_map, hexDigits_eq_digits]
    rw [Nat.digits_len 16 n (by norm_num) hn]
    have := (Nat.lt_pow_iff_log_lt (b := 16) (by norm_num) hn).1 h
    omega

theorem hexVal_hexChar : ∀ d < 16, hexVal (hexChar d) = d := by decide

theorem padStart_length (n : Nat) (c : Char) (l : Str) (h : l.length ≤ n) :
    (padStartChars n c l).length = n := by
  simp [padStartChars]
  omega

theorem padStart_peel (m n : Nat) (h : n < 16 ^ (m + 1)) :
    padStartChars (m + 1) '0' (natToHexCore n) =
      padStartChars m '0' (natToHexCore (n / 16)) ++ [hexChar (n % 16)] := by
  by_cases hn : n = 0
  · subst hn
    have h0 : hexChar 0 = '0' := by decide
    simp only [Nat.zero_div, Nat.zero_mod, natToHexCore_zero, h0, padStartChars,
      List.length_nil, Nat.sub_zero, List.append_nil]
    exact List.replicate_succ' m '0'
  · rw [natToHexCore_step n hn]
    have hlen : (natToHexCore (n / 16)).length ≤ m := by
      apply natToHexCore_length_le
      apply Nat.div_lt_of_lt_mul
      rw [pow_succ] at h
      omega
    simp only [padStartChars, List.length_append, List.length_singleton]
    rw [show m + 1 - ((natToHexCore (n / 16)).length + 1) = m - (natToHexCore (n / 16)).length
      by omega]
    simp [List.append_assoc]

theorem hexToBytes_nil : hexToBytes [] = [] := rfl

theorem hexToBytes_cons2 (c1 c2 : Char) (rest : Str) :
    hexToBytes (c1 :: c2 :: rest) = (16 * hexVal c1 + hexVal c2) :: hexToBytes rest := rfl

theorem hexToBytes_append : ∀ (a b : Str), a.length % 2 = 0 →
    hexToBytes (a ++ b) = hexToBytes a ++ hexToBytes b
  | [], _, _ => by simp [hexToBytes_nil]
  | [c], _, h => by simp at h
  | c1 :: c2 :: rest, b, h => by
    simp only [List.cons_append, hexToBytes_cons2]
    rw [hexToBytes_append rest b (by simp at h; omega)]

theorem hexToBytes_length : ∀ (l : Str), (hexToBytes l).length = l.length / 2
  | [] => rfl
  | [c] => by simp [show hexToBytes [c] = [] from rfl]
  | c1 :: c2 :: rest => by
    simp only [hexToBytes_cons2, List.length_cons]
    rw [hexToBytes_length rest]
    omega

theorem bytesBE_length (k n : Nat) : (bytesBE k n).length = k := by
  induction k generalizing n with
  | zero => rfl
  | succ k ih => simp [bytesBE, ih]

theorem keccak256_length (msg : List Nat) : (keccak256 msg).length = 32 := by
  simp [keccak256]

theorem keccak256_bytes_lt (msg : List Nat) : ∀ b ∈ keccak256 msg, b < 256 := by
  intro b hb
  simp only [keccak256, List.mem_map, List.mem_range] at hb
  obtain ⟨j, -, rfl⟩ := hb
  exact Nat.mod_lt _ (by norm_num)

theorem bytesToHex_nil : bytesToHex [] = [] := rfl

theorem bytesToHex_cons (b : Nat) (rest : List Nat) :
    bytesToHex (b :: rest) = hexChar (b / 16 % 16) :: hexChar (b % 16) :: bytesToHex rest := by
  simp [bytesToHex]

theorem bytesToHex_length (bs : List Nat) : (bytesToHex bs).length = 2 * bs.length := by
  induction bs with
  | nil => rfl
  | cons b rest ih => simp [bytesToHex_cons, ih]; omega

theorem hexToBytes_bytesToHex (bs : List Nat) (h : ∀ b ∈ bs, b < 256) :
    hexToBytes (bytesToHex bs) = bs := by
  induction bs with
  | nil => rfl
  | cons b rest ih =>
    rw [bytesToHex_cons, hexToBytes_cons2,
      hexVal_hexChar _ (Nat.mod_lt _ (by norm_num)),
      hexVal_hexChar _ (Nat.mod_lt _ (by norm_num)),
      ih (fun x hx => h x (List.mem_cons_of_mem b hx))]
    have hb : b < 256 := h b (List.mem_cons_self b rest)
    have : 16 * (b / 16 % 16) + b % 16 = b % 256 := by
      rw [show (256 : Nat) = 16 * 16 from rfl, Nat.mod_mul]
      omega
    rw [this, Nat.mod_eq_of_lt hb]

theorem isHexBytes32_elim (s : Str) (h : isHexBytes32 s = true) :
    ∃ rest : Str, s = '0' :: 'x' :: rest ∧ rest.length = 64 ∧
      ∀ c ∈ rest, c ∈ lowerHexChars := by
  simp only [isHexBytes32, Bool.and_eq_true, decide_eq_true_eq, beq_iff_eq,
    List.all_eq_true] at h
  obtain ⟨⟨h2, hlen⟩, hall⟩ := h
  refine ⟨s.drop 2, ?_, hlen, fun c hc => by simpa using hall c hc⟩
  conv_lhs => rw [← List.take_append_drop 2 s]
  rw [h2]
  rfl

theorem encodeUint_core (n : Nat) :
    encodeUint n = padStartChars 64 '0' (natToHexCore n) := by
  by_cases hn : n = 0
  · subst hn
    show padStartChars 64 '0' ['0'] = padStartChars 64 '0' (natToHexCore 0)
    rw [natToHexCore_zero]
    simp only [padStartChars, List.length_singleton, List.length_nil, Nat.sub_zero,
      List.append_nil]
    rw [show (64 : Nat) = 63 + 1 from rfl, List.replicate_succ' 63 '0']
  · simp [encodeUint, natToHex, hn]

theorem hexToBytes_pad_core (k : Nat) : ∀ (n : Nat), n < 256 ^ k →
    hexToBytes (padStartChars (2 * k) '0' (natToHexCore n)) = bytesBE k n := by
  induction k with
  | zero =>
    intro n h
    interval_cases n
    simp [padStartChars, natToHexCore_zero, bytesBE, hexToBytes_nil]
  | succ k ih =>
    intro n h
    have hpow : (256 : Nat) ^ (k + 1) = 16 ^ (2 * k + 1 + 1) := by
      rw [show 2 * k + 1 + 1 = 2 * (k + 1) from by omega, pow_mul]
      norm_num
    have h16 : n < 16 ^ (2 * k + 1 + 1) := hpow ▸ h
    have hdiv16 : n / 16 < 16 ^ (2 * k + 1) := by
      apply Nat.div_lt_of_lt_mul
      rw [pow_succ] at h16
      omega
    have hdiv256 : n / 256 < 256 ^ k := by
      apply Nat.div_lt_of_lt_mul
      rw [pow_succ] at h
      omega
    have hcorelen : (natToHexCore (n / 16 / 16)).length ≤ 2 * k := by
      apply natToHexCore_length_le
      rw [Nat.div_div_eq_div_mul]
      calc n / (16 * 16) < 256 ^ k := by simpa using hdiv256
      _ ≤ 16 ^ (2 * k) := by rw [pow_mul]; norm_num
    have heven : (padStartChars (2 * k) '0' (natToHexCore (n / 16 / 16))).length % 2 = 0 := by
      rw [padStart_length _ _ _ hcorelen]
      omega
    rw [show 2 * (k + 1) = 2 * k + 1 + 1 from by omega,
      padStart_peel (2 * k + 1) n h16,
      padStart_peel (2 * k) (n / 16) hdiv16,
      List.append_assoc,
      show [hexChar (n / 16 % 16)] ++ [hexChar (n % 16)]
        = [hexChar (n / 16 % 16), hexChar (n % 16)] from rfl,
      hexToBytes_append _ _ heven,
      hexToBytes_cons2, hexToBytes_nil,
      hexVal_hexChar _ (Nat.mod_lt _ (by norm_num)),
      hexVal_hexChar _ (Nat.mod_lt _ (by norm_num)),
      Nat.div_div_eq_div_mul]
    have hbyte : 16 * (n / 16 % 16) + n % 16 = n % 256 := by
      rw [show (256 : Nat) = 16 * 16 from rfl, Nat.mod_mul]
      omega
    rw [hbyte, show (16 * 16 : Nat) = 256 from rfl, ih (n / 256) hdiv256]
    simp [bytesBE]

theorem encodeUint8_eq : encodeUint8 = encodeUint := rfl

theorem encodeUint16_eq : encodeUint16 = encodeUint := rfl

theorem pow256_pow2 : (256 : Nat) ^ 32 = 2 ^ 256 := by norm_num

theorem encodeUint_length (n : Nat) (h : n < 2 ^ 256) : (encodeUint n).length = 64 := by
  rw [encodeUint_core, padStart_length]
  exact le_trans (natToHexCore_length_le n 64 (by rw [show (16:Nat) ^ 64 = 2 ^ 256 by norm_num]; exact h)) (by norm_num)

theorem hexToBytes_encodeUint (n : Nat) (h : n < 2 ^ 256) :
    hexToBytes (encodeUint n) = bytesBE 32 n := by
  rw [encodeUint_core, show (64 : Nat) = 2 * 32 from rfl]
  exact hexToBytes_pad_core 32 n (pow256_pow2 ▸ h)

theorem encodeBytes32_canonical (rest : Str) (hlen : rest.length = 64) :
    encodeBytes32 ('0' :: 'x' :: rest) = rest := by
  have h1 : replaceFirst0x ('0' :: 'x' :: rest) = rest := rfl
  simp [encodeBytes32, pad32, h1, padStartChars, padEndChars, hlen, List.take_of_length_le,
    le_of_eq hlen]

theorem encodeBytes32_length (s : Str) : (encodeBytes32 s).length = 64 := by
  have htake : ((pad32 s).take 64).length ≤ 64 := by
    simp [List.length_take]
  simp only [encodeBytes32, padEndChars, List.length_append, List.length_replicate]
  omega

theorem encodeBytes32_keccakStr (r : Str) :
    encodeBytes32 (keccak256Str r) = bytesToHex (keccak256 (utf8Encode r)) := by
  rw [show keccak256Str r = '0' :: 'x' :: bytesToHex (keccak256 (utf8Encode r)) from rfl]
  apply encodeBytes32_canonical
  rw [bytesToHex_length, keccak256_length]

theorem specBytes32_cons (rest : Str) : specBytes32 ('0' :: 'x' :: rest) = hexToBytes rest := rfl

theorem hexToBytes_flatten : ∀ (parts : List Str), (∀ p ∈ parts, p.length % 2 = 0) →
    hexToBytes parts.flatten = (parts.map hexToBytes).flatten
  | [], _ => rfl
  | p :: rest, h => by
    simp only [List.flatten_cons, List.map_cons]
    rw [hexToBytes_append p rest.flatten (h p (List.mem_cons_self p rest)),
      hexToBytes_flatten rest (fun q hq => h q (List.mem_cons_of_mem p hq))]

theorem VerdictOutcomeIndex_lt_five : ∀ o : VerdictOutcome, VerdictOutcomeIndex o < 5 := by
  intro o
  cases o <;> simp [VerdictOutcomeIndex]

theorem encAppend {a b : Str} {x y : List Nat}
    (ha : hexToBytes a = x ∧ a.length % 2 = 0) (hb : hexToBytes b = y ∧ b.length % 2 = 0) :
    hexToBytes (a ++ b) = x ++ y ∧ (a ++ b).length % 2 = 0 := by
  refine ⟨?_, ?_⟩
  · rw [hexToBytes_append a b ha.2, ha.1, hb.1]
  · have h1 := ha.2
    have h2 := hb.2
    simp only [List.length_append]
    omega

theorem encB32 {s : Str} (h : isHexBytes32 s = true) :
    hexToBytes (encodeBytes32 s) = specBytes32 s ∧ (encodeBytes32 s).length % 2 = 0 := by
  obtain ⟨rest, rfl, hlen, -⟩ := isHexBytes32_elim s h
  exact ⟨by rw [encodeBytes32_canonical rest hlen, specBytes32_cons],
    by rw [encodeBytes32_length]⟩

theorem encUintE (n : Nat) (h : n < 2 ^ 256) :
    hexToBytes (encodeUint n) = specWord32 n ∧ (encodeUint n).length % 2 = 0 :=
  ⟨hexToBytes_encodeUint n h, by rw [encodeUint_length n h]⟩

theorem encKeccakHex (x : List Nat) :
    hexToBytes (bytesToHex (keccak256 x)) = keccak256 x ∧
      (bytesToHex (keccak256 x)).length % 2 = 0 :=
  ⟨hexToBytes_bytesToHex _ (keccak256_bytes_lt x),
   by rw [bytesToHex_length, keccak256_length]⟩

theorem encReasoning (r : Str) :
    hexToBytes (encodeBytes32 (keccak256Str r)) = keccak256 (utf8Encode r) ∧
      (encodeBytes32 (keccak256Str r)).length % 2 = 0 :=
  ⟨by rw [encodeBytes32_keccakStr]; exact hexToBytes_bytesToHex _ (keccak256_bytes_lt _),
   by rw [encodeBytes32_length]⟩

theorem encModelVote (v : ModelVote) (h : v.confidenceBps < 2 ^ 16) :
    hexToBytes (modelVoteParts v).flatten = specModelVoteBytes v ∧
      ((modelVoteParts v).flatten).length % 2 = 0 := by
  have hflat : (modelVoteParts v).flatten =
      bytesToHex (keccak256 (utf8Encode v.modelId))
      ++ (encodeUint (VerdictOutcomeIndex v.vote)
        ++ (encodeUint v.confidenceBps ++ encodeBytes32 (keccak256Str v.reasoning))) := by
    simp [modelVoteParts, encodeUint8_eq, encodeUint16_eq]
  rw [hflat]
  have h1 := encKeccakHex (utf8Encode v.modelId)
  have h2 := encUintE (VerdictOutcomeIndex v.vote)
    (lt_trans (VerdictOutcomeIndex_lt_five v.vote) (by norm_num))
  have h3 := encUintE v.confidenceBps (lt_trans h (by norm_num))
  have h4 := encReasoning v.reasoning
  have hall := encAppend h1 (encAppend h2 (encAppend h3 h4))
  constructor
  · rw [hall.1]
    simp [specModelVoteBytes, List.append_assoc]
  · exact hall.2

theorem preimage_bytes (verdict : WorkflowVerdict) (h : WellFormedVerdict verdict) :
    hexToBytes (verdictPreimageHex verdict) = specVerdictBytes verdict := by
  obtain ⟨hd, hA, hB, hR, hcc, hexe, hc1, hc2, hc3⟩ := h
  have hflat : verdictPreimageHex verdict =
      encodeBytes32 verdict.disputeId
      ++ (encodeUint (VerdictOutcomeIndex verdict.finalOutcome)
      ++ ((modelVoteParts verdict.modelVotes.1).flatten
      ++ ((modelVoteParts verdict.modelVotes.2.1).flatten
      ++ ((modelVoteParts verdict.modelVotes.2.2).flatten
      ++ (encodeUint verdict.consensusCount
      ++ (encodeBytes32 verdict.evidenceHashA
      ++ (encodeBytes32 verdict.evidenceHashB
      ++ (encodeUint verdict.executedAt
      ++ encodeBytes32 verdict.workflowRunId)))))))) := by
    simp [verdictPreimageHex, verdictParts, encodeUint8_eq, List.append_assoc]
  rw [hflat]
  have e1 := encB32 hd
  have e2 := encUintE (VerdictOutcomeIndex verdict.finalOutcome)
    (lt_trans (VerdictOutcomeIndex_lt_five _) (by norm_num))
  have em1 := encModelVote _ hc1
  have em2 := encModelVote _ hc2
  have em3 := encModelVote _ hc3
  have e3 := encUintE verdict.consensusCount (lt_trans hcc (by norm_num))
  have e4 := encB32 hA
  have e5 := encB32 hB
  have e6 := encUintE verdict.executedAt hexe
  have e7 := encB32 hR
  have hall := encAppend e1 (encAppend e2 (encAppend em1 (encAppend em2 (encAppend em3
    (encAppend e3 (encAppend e4 (encAppend e5 (encAppend e6 e7))))))))
  rw [hall.1]
  simp [specVerdictBytes, List.append_assoc]

theorem parseBytesBE_append_single (l : List Nat) (b : Nat) :
    parseBytesBE (l ++ [b]) = 256 * parseBytesBE l + b := by
  simp [parseBytesBE, List.foldl_append]

theorem parseBytesBE_bytesBE (k : Nat) : ∀ n, parseBytesBE (bytesBE k n) = n % 256 ^ k := by
  induction k with
  | zero => intro n; simp [bytesBE, parseBytesBE, Nat.mod_one]
  | succ k ih =>
    intro n
    rw [show bytesBE (k + 1) n = bytesBE k (n / 256) ++ [n % 256] from rfl,
      parseBytesBE_append_single, ih (n / 256)]
    rw [pow_succ, mul_comm (256 ^ k) 256, Nat.mod_mul]
    omega

theorem bytesBE_inj {k n1 n2 : Nat} (h1 : n1 < 256 ^ k) (h2 : n2 < 256 ^ k)
    (heq : bytesBE k n1 = bytesBE k n2) : n1 = n2 := by
  have h := congrArg parseBytesBE heq
  rw [parseBytesBE_bytesBE, parseBytesBE_bytesBE,
    Nat.mod_eq_of_lt h1, Nat.mod_eq_of_lt h2] at h
  exact h

theorem hexChar_hexVal_mem : ∀ c ∈ lowerHexChars, hexChar (hexVal c) = c := by decide

theorem hexVal_lt_mem : ∀ c ∈ lowerHexChars, hexVal c < 16 := by decide

theorem hexToBytes_inj_lower : ∀ (r1 r2 : Str), r1.length = r2.length → r1.length % 2 = 0 →
    (∀ c ∈ r1, c ∈ lowerHexChars) → (∀ c ∈ r2, c ∈ lowerHexChars) →
    hexToBytes r1 = hexToBytes r2 → r1 = r2
  | [], [], _, _, _, _, _ => rfl
  | [], _ :: _, hlen, _, _, _, _ => by simp at hlen
  | _ :: _, [], hlen, _, _, _, _ => by simp at hlen
  | [_], _, _, he, _, _, _ => by simp at he
  | _ :: _ :: _, [_], hlen, _, _, _, _ => by
    simp only [List.length_cons, List.length_nil] at hlen
    omega
  | c1 :: c2 :: t1, d1 :: d2 :: t2, hlen, he, ha1, ha2, heq => by
    rw [hexToBytes_cons2, hexToBytes_cons2] at heq
    have hb : 16 * hexVal c1 + hexVal c2 = 16 * hexVal d1 + hexVal d2 :=
      (List.cons.injEq _ _ _ _ ▸ heq).1
    have hrest : hexToBytes t1 = hexToBytes t2 := (List.cons.injEq _ _ _ _ ▸ heq).2
    have hc1 : c1 ∈ lowerHexChars := ha1 c1 (by simp)
    have hc2 : c2 ∈ lowerHexChars := ha1 c2 (by simp)
    have hd1 : d1 ∈ lowerHexChars := ha2 d1 (by simp)
    have hd2 : d2 ∈ lowerHexChars := ha2 d2 (by simp)
    have l1 := hexVal_lt_mem c1 hc1
    have l2 := hexVal_lt_mem c2 hc2
    have l3 := hexVal_lt_mem d1 hd1
    have l4 := hexVal_lt_mem d2 hd2
    have hv1 : hexVal c1 = hexVal d1 := by omega
    have hv2 : hexVal c2 = hexVal d2 := by omega
    have e1 : c1 = d1 := by
      rw [← hexChar_hexVal_mem c1 hc1, ← hexChar_hexVal_mem d1 hd1, hv1]
    have e2 : c2 = d2 := by
      rw [← hexChar_hexVal_mem c2 hc2, ← hexChar_hexVal_mem d2 hd2, hv2]
    have et : t1 = t2 :=
      hexToBytes_inj_lower t1 t2
        (by simp only [List.length_cons] at hlen; omega)
        (by simp only [List.length_cons] at he; omega)
        (fun c hc => ha1 c (by simp [hc]))
        (fun c hc => ha2 c (by simp [hc]))
        hrest
    rw [e1, e2, et]

theorem peel32 {x1 x2 y1 y2 : List Nat} (hx1 : x1.length = 32) (hx2 : x2.length = 32)
    (h : x1 ++ y1 = x2 ++ y2) : x1 = x2 ∧ y1 = y2 :=
  List.append_inj h (by omega)

theorem outcomeIndex_inj : ∀ o1 o2 : VerdictOutcome,
    VerdictOutcomeIndex o1 = VerdictOutcomeIndex o2 → o1 = o2 := by
  intro o1 o2 h
  cases o1 <;> cases o2 <;> first | rfl | simp [VerdictOutcomeIndex] at h

theorem specWord32_inj {n1 n2 : Nat} (h1 : n1 < 2 ^ 256) (h2 : n2 < 2 ^ 256)
    (heq : specWord32 n1 = specWord32 n2) : n1 = n2 :=
  bytesBE_inj (pow256_pow2 ▸ h1) (pow256_pow2 ▸ h2) heq

theorem specWord32_length (n : Nat) : (specWord32 n).length = 32 := bytesBE_length 32 n

theorem committed_of_specBytes (v1 v2 : WorkflowVerdict)
    (h1 : WellFormedVerdict v1) (h2 : WellFormedVerdict v2)
    (heq : specVerdictBytes v1 = specVerdictBytes v2) :
    committedFields v1 = committedFields v2 := by
  obtain ⟨hd1, hA1, hB1, hR1, hcc1, hex1, hc11, hc12, hc13⟩ := h1
  obtain ⟨hd2, hA2, hB2, hR2, hcc2, hex2, hc21, hc22, hc23⟩ := h2
  obtain ⟨rd1, hdeq1, hdlen1, hdhex1⟩ := isHexBytes32_elim _ hd1
  obtain ⟨ra1, haeq1, halen1, hahex1⟩ := isHexBytes32_elim _ hA1
  obtain ⟨rb1, hbeq1, hblen1, hbhex1⟩ := isHexBytes32_elim _ hB1
  obtain ⟨rr1, hreq1, hrlen1, hrhex1⟩ := isHexBytes32_elim _ hR1
  obtain ⟨rd2, hdeq2, hdlen2, hdhex2⟩ := isHexBytes32_elim _ hd2
  obtain ⟨ra2, haeq2, halen2, hahex2⟩ := isHexBytes32_elim _ hA2
  obtain ⟨rb2, hbeq2, hblen2, hbhex2⟩ := isHexBytes32_elim _ hB2
  obtain ⟨rr2, hreq2, hrlen2, hrhex2⟩ := isHexBytes32_elim _ hR2
  rw [specVerdictBytes, specVerdictBytes, hdeq1, hdeq2, haeq1, haeq2, hbeq1, hbeq2,
    hreq1, hreq2] at heq
  simp only [specModelVoteBytes, specBytes32_cons, List.append_assoc] at heq
  have hl_rd1 : (hexToBytes rd1).length = 32 := by rw [hexToBytes_length, hdlen1]
  have hl_rd2 : (hexToBytes rd2).length = 32 := by rw [hexToBytes_length, hdlen2]
  have hl_ra1 : (hexToBytes ra1).length = 32 := by rw [hexToBytes_length, halen1]
  have hl_ra2 : (hexToBytes ra2).length = 32 := by rw [hexToBytes_length, halen2]
  have hl_rb1 : (hexToBytes rb1).length = 32 := by rw [hexToBytes_length, hblen1]
  have hl_rb2 : (hexToBytes rb2).length = 32 := by rw [hexToBytes_length, hblen2]
  obtain ⟨q1, heq⟩ := peel32 hl_rd1 hl_rd2 heq
  obtain ⟨q2, heq⟩ := peel32 (specWord32_length _) (specWord32_length _) heq
  obtain ⟨q3, heq⟩ := peel32 (keccak256_length _) (keccak256_length _) heq
  obtain ⟨q4, heq⟩ := peel32 (specWord32_length _) (specWord32_length _) heq
  obtain ⟨q5, heq⟩ := peel32 (specWord32_length _) (specWord32_length _) heq
  obtain ⟨q6, heq⟩ := peel32 (keccak256_length _) (keccak256_length _) heq
  obtain ⟨q7, heq⟩ := peel32 (keccak256_length _) (keccak256_length _) heq
  obtain ⟨q8, heq⟩ := peel32 (specWord32_length _) (specWord32_length _) heq
  obtain ⟨q9, heq⟩ := peel32 (specWord32_length _) (specWord32_length _) heq
  obtain ⟨q10, heq⟩ := peel32 (keccak256_length _) (keccak256_length _) heq
  obtain ⟨q11, heq⟩ := peel32 (keccak256_length _) (keccak256_length _) heq
  obtain ⟨q12, heq⟩ := peel32 (specWord32_length _) (specWord32_length _) heq
  obtain ⟨q13, heq⟩ := peel32 (specWord32_length _) (specWord32_length _) heq
  obtain ⟨q14, heq⟩ := peel32 (keccak256_length _) (keccak256_length _) heq
  obtain ⟨q15, heq⟩ := peel32 (specWord32_length _) (specWord32_length _) heq
  obtain ⟨q16, heq⟩ := peel32 hl_ra1 hl_ra2 heq
  obtain ⟨q17, heq⟩ := peel32 hl_rb1 hl_rb2 heq
  obtain ⟨q18, q19⟩ := peel32 (specWord32_length _) (specWord32_length _) heq
  have deq : v1.disputeId = v2.disputeId := by
    rw [hdeq1, hdeq2,
      hexToBytes_inj_lower rd1 rd2 (hdlen1.trans hdlen2.symm) (by rw [hdlen1]) hdhex1 hdhex2 q1]
  have outeq : VerdictOutcomeIndex v1.finalOutcome = VerdictOutcomeIndex v2.finalOutcome :=
    specWord32_inj (lt_trans (VerdictOutcomeIndex_lt_five _) (by norm_num))
      (lt_trans (VerdictOutcomeIndex_lt_five _) (by norm_num)) q2
  have vi1 : VerdictOutcomeIndex v1.modelVotes.1.vote = VerdictOutcomeIndex v2.modelVotes.1.vote :=
    specWord32_inj (lt_trans (VerdictOutcomeIndex_lt_five _) (by norm_num))
      (lt_trans (VerdictOutcomeIndex_lt_five _) (by norm_num)) q4
  have cf1 : v1.modelVotes.1.confidenceBps = v2.modelVotes.1.confidenceBps :=
    specWord32_inj (lt_trans hc11 (by norm_num)) (lt_trans hc21 (by norm_num)) q5
  have vi2 : VerdictOutcomeIndex v1.modelVotes.2.1.vote = VerdictOutcomeIndex v2.modelVotes.2.1.vote :=
    specWord32_inj (lt_trans (VerdictOutcomeIndex_lt_five _) (by norm_num))
      (lt_trans (VerdictOutcomeIndex_lt_five _) (by norm_num)) q8
  have cf2 : v1.modelVotes.2.1.confidenceBps = v2.modelVotes.2.1.confidenceBps :=
    specWord32_inj (lt_trans hc12 (by norm_num)) (lt_trans hc22 (by norm_num)) q9
  have vi3 : VerdictOutcomeIndex v1.modelVotes.2.2.vote = VerdictOutcomeIndex v2.modelVotes.2.2.vote :=
    specWord32_inj (lt_trans (VerdictOutcomeIndex_lt_five _) (by norm_num))
      (lt_trans (VerdictOutcomeIndex_lt_five _) (by norm_num)) q12
  have cf3 : v1.modelVotes.2.2.confidenceBps = v2.modelVotes.2.2.confidenceBps :=
    specWord32_inj (lt_trans hc13 (by norm_num)) (lt_trans hc23 (by norm_num)) q13
  have cceq : v1.consensusCount = v2.consensusCount :=
    specWord32_inj (lt_trans hcc1 (by norm_num)) (lt_trans hcc2 (by norm_num)) q15
  have aeq : v1.evidenceHashA = v2.evidenceHashA := by
    rw [haeq1, haeq2,
      hexToBytes_inj_lower ra1 ra2 (halen1.trans halen2.symm) (by rw [halen1]) hahex1 hahex2 q16]
  have beq : v1.evidenceHashB = v2.evidenceHashB := by
    rw [hbeq1, hbeq2,
      hexToBytes_inj_lower rb1 rb2 (hblen1.trans hblen2.symm) (by rw [hblen1]) hbhex1 hbhex2 q17]
  have exeq : v1.executedAt = v2.executedAt := specWord32_inj hex1 hex2 q18
  have req : v1.workflowRunId = v2.workflowRunId := by
    rw [hreq1, hreq2,
      hexToBytes_inj_lower rr1 rr2 (hrlen1.trans hrlen2.symm) (by rw [hrlen1]) hrhex1 hrhex2 q19]
  simp only [committedFields, committedVote, CommittedFields.mk.injEq, CommittedVote.mk.injEq,
    Prod.mk.injEq]
  exact ⟨deq, outcomeIndex_inj _ _ outeq, ⟨⟨q3, vi1, cf1, q6⟩, ⟨q7, vi2, cf2, q10⟩,
    ⟨q11, vi3, cf3, q14⟩⟩, cceq, aeq, beq, exeq, req⟩

theorem countVotes_fold (votes : List ParsedModelVerdict) :
    ∀ (f : VerdictOutcome → Nat) (o : VerdictOutcome),
      votes.foldl (fun g v => bumpCount g v.vote) f o
        = f o + votes.countP (fun v => v.vote == o) := by
  induction votes with
  | nil => intro f o; simp
  | cons v t ih =>
    intro f o
    rw [List.foldl_cons, ih (bumpCount f v.vote) o, List.countP_cons]
    simp only [bumpCount]
    by_cases h : o = v.vote
    · simp [h]
      omega
    · have : ¬(v.vote == o) = true := by simp [beq_iff_eq]; exact fun e => h e.symm
      simp [h, this]

theorem countVotes_eq (votes : List ParsedModelVerdict) (o : VerdictOutcome) :
    countVotes votes o = votes.countP (fun v => v.vote == o) := by
  simpa using countVotes_fold votes (fun _ => 0) o

theorem confByOutcome_fold (votes : List ParsedModelVerdict) :
    ∀ (f : VerdictOutcome → List ℚ) (o : VerdictOutcome),
      votes.foldl (fun g v => pushConf g v.vote v.confidencePct) f o
        = f o ++ (votes.filter (fun v => v.vote == o)).map ParsedModelVerdict.confidencePct := by
  induction votes with
  | nil => intro f o; simp
  | cons v t ih =>
    intro f o
    rw [List.foldl_cons, ih (pushConf f v.vote v.confidencePct) o, List.filter_cons]
    simp only [pushConf]
    by_cases h : o = v.vote
    · simp [h]
    · have : ¬(v.vote == o) = true := by simp [beq_iff_eq]; exact fun e => h e.symm
      simp [h, this]

theorem confidenceByOutcome_eq (votes : List ParsedModelVerdict) (o : VerdictOutcome) :
    confidenceByOutcome votes o
      = (votes.filter (fun v => v.vote == o)).map ParsedModelVerdict.confidencePct := by
  simpa using confByOutcome_fold votes (fun _ => []) o

theorem countVotes_sum (votes : List ParsedModelVerdict) :
    countVotes votes .FAVOR_PARTY_A + countVotes votes .FAVOR_PARTY_B
      + countVotes votes .INSUFFICIENT_EVIDENCE + countVotes votes .NO_CONSENSUS
      + countVotes votes .CIRCUIT_BREAKER = votes.length := by
  simp only [countVotes_eq]
  induction votes with
  | nil => simp
  | cons v t ih =>
    simp only [List.countP_cons, List.length_cons]
    cases hv : v.vote <;> simp [hv] <;> omega

theorem countVotes_cb_zero (votes : List ParsedModelVerdict)
    (h : ∀ v ∈ votes, v.vote ≠ .CIRCUIT_BREAKER) :
    countVotes votes .CIRCUIT_BREAKER = 0 := by
  rw [countVotes_eq]
  apply List.countP_eq_zero.mpr
  intro v hv
  simp [beq_iff_eq]
  exact h v hv

theorem countP_le_one_of_pairwise (votes : List ParsedModelVerdict)
    (h : List.Pairwise (fun a b => a.vote ≠ b.vote) votes) (o : VerdictOutcome) :
    votes.countP (fun v => v.vote == o) ≤ 1 := by
  induction votes with
  | nil => simp
  | cons v t ih =>
    rw [List.countP_cons]
    rcases List.pairwise_cons.mp h with ⟨hhead, htail⟩
    by_cases hv : v.vote = o
    · have ht : t.countP (fun w => w.vote == o) = 0 := by
        apply List.countP_eq_zero.mpr
        intro w hw
        simp [beq_iff_eq]
        intro e
        exact (hhead w hw) (hv.trans e.symm)
      simp [ht, hv]
    · have : ¬(v.vote == o) = true := by simp [beq_iff_eq, hv]
      simp [this]
      exact ih htail

theorem applyConsensus_cb_branch (votes : List ParsedModelVerdict) (hlen : votes.length = 3)
    (hpos : 0 < countVotes votes .CIRCUIT_BREAKER) :
    applyConsensus votes = .ok (circuitBreakerResult votes (countVotes votes)) := by
  simp [applyConsensus, hlen, hpos]

theorem applyConsensus_loop_branch (votes : List ParsedModelVerdict) (hlen : votes.length = 3)
    (hcb : countVotes votes .CIRCUIT_BREAKER = 0) :
    applyConsensus votes =
      match checkOutcomesLoop votes (countVotes votes) (confidenceByOutcome votes)
          outcomesToCheck with
      | some result => .ok result
      | none => .ok (noConsensusResult votes (countVotes votes)) := by
  simp [applyConsensus, hlen, hcb]

theorem thresholdResult_fields (votes : List ParsedModelVerdict)
    (vc : VerdictOutcome → Nat) (cbo : VerdictOutcome → List ℚ) (o : VerdictOutcome) :
    (thresholdResult votes vc cbo o).finalOutcome = o ∧
    (thresholdResult votes vc cbo o).consensusCount = vc o ∧
    (thresholdResult votes vc cbo o).aggregateConfidenceBps
      = round (((cbo o).sum / ((cbo o).length : ℚ)) * 100) :=
  ⟨rfl, rfl, rfl⟩

theorem consensus_majority_core (votes : List ParsedModelVerdict)
    (hlen : votes.length = 3)
    (hparsed : ∀ v ∈ votes, v.vote ≠ .NO_CONSENSUS)
    (hnocb : ∀ v ∈ votes, v.vote ≠ .CIRCUIT_BREAKER)
    (o : VerdictOutcome) (hmaj : 2 ≤ votes.countP (fun v => v.vote == o)) :
    applyConsensus votes
      = .ok (thresholdResult votes (countVotes votes) (confidenceByOutcome votes) o) := by
  have hopos : 0 < votes.countP (fun v => v.vote == o) := by omega
  obtain ⟨v, hv, hvo⟩ := List.countP_pos_iff.mp hopos
  have hvo2 : v.vote = o := by simpa [beq_iff_eq] using hvo
  have hcb0 := countVotes_cb_zero votes hnocb
  have hsum := countVotes_sum votes
  rw [applyConsensus_loop_branch votes hlen hcb0]
  rw [← countVotes_eq] at hmaj
  have honc : o ≠ .NO_CONSENSUS := fun h => hparsed v hv (hvo2.trans h)
  have hocb : o ≠ .CIRCUIT_BREAKER := fun h => hnocb v hv (hvo2.trans h)
  rw [hlen] at hsum
  cases o with
  | FAVOR_PARTY_A =>
    simp only [outcomesToCheck, checkOutcomesLoop, if_pos (show CONSENSUS_THRESHOLD ≤
      countVotes votes .FAVOR_PARTY_A from hmaj)]
  | FAVOR_PARTY_B =>
    have hnA : ¬ CONSENSUS_THRESHOLD ≤ countVotes votes .FAVOR_PARTY_A := by
      simp only [CONSENSUS_THRESHOLD]
      omega
    simp only [outcomesToCheck, checkOutcomesLoop, if_neg hnA,
      if_pos (show CONSENSUS_THRESHOLD ≤ countVotes votes .FAVOR_PARTY_B from hmaj)]
  | INSUFFICIENT_EVIDENCE =>
    have hnA : ¬ CONSENSUS_THRESHOLD ≤ countVotes votes .FAVOR_PARTY_A := by
      simp only [CONSENSUS_THRESHOLD]
      omega
    have hnB : ¬ CONSENSUS_THRESHOLD ≤ countVotes votes .FAVOR_PARTY_B := by
      simp only [CONSENSUS_THRESHOLD]
      omega
    simp only [outcomesToCheck, checkOutcomesLoop, if_neg hnA, if_neg hnB,
      if_pos (show CONSENSUS_THRESHOLD ≤ countVotes votes .INSUFFICIENT_EVIDENCE from hmaj)]
  | NO_CONSENSUS => exact absurd rfl honc
  | CIRCUIT_BREAKER => exact absurd rfl hocb

theorem consensus_split_core (votes : List ParsedModelVerdict)
    (hlen : votes.length = 3)
    (hnocb : ∀ v ∈ votes, v.vote ≠ .CIRCUIT_BREAKER)
    (hpw : List.Pairwise (fun a b => a.vote ≠ b.vote) votes) :
    applyConsensus votes = .ok (noConsensusResult votes (countVotes votes)) := by
  have hcb0 := countVotes_cb_zero votes hnocb
  have hle := countP_le_one_of_pairwise votes hpw
  rw [applyConsensus_loop_branch votes hlen hcb0]
  have hnA : ¬ CONSENSUS_THRESHOLD ≤ countVotes votes .FAVOR_PARTY_A := by
    rw [countVotes_eq]
    have := hle .FAVOR_PARTY_A
    simp only [CONSENSUS_THRESHOLD]
    omega
  have hnB : ¬ CONSENSUS_THRESHOLD ≤ countVotes votes .FAVOR_PARTY_B := by
    rw [countVotes_eq]
    have := hle .FAVOR_PARTY_B
    simp only [CONSENSUS_THRESHOLD]
    omega
  have hnIE : ¬ CONSENSUS_THRESHOLD ≤ countVotes votes .INSUFFICIENT_EVIDENCE := by
    rw [countVotes_eq]
    have := hle .INSUFFICIENT_EVIDENCE
    simp only [CONSENSUS_THRESHOLD]
    omega
  simp only [outcomesToCheck, checkOutcomesLoop, if_neg hnA, if_neg hnB, if_neg hnIE]

theorem loops_align (votes : List ParsedModelVerdict) (vc : VerdictOutcome → Nat)
    (cbo : VerdictOutcome → List ℚ) :
    ∀ outcomes : List VerdictOutcome,
      (checkOutcomesLoop votes vc cbo outcomes = none
        ∧ Frontend.checkOutcomesLoop votes vc cbo outcomes = none)
      ∨ ∃ r1 r2, checkOutcomesLoop votes vc cbo outcomes = some r1
          ∧ Frontend.checkOutcomesLoop votes vc cbo outcomes = some r2
          ∧ r1.finalOutcome = r2.finalOutcome
          ∧ r1.consensusCount = r2.consensusCount
          ∧ r1.aggregateConfidenceBps = r2.aggregateConfidenceBps
          ∧ r1.voteCounts = r2.voteCounts := by
  intro outcomes
  induction outcomes with
  | nil => exact Or.inl ⟨rfl, rfl⟩
  | cons o rest ih =>
    by_cases h : CONSENSUS_THRESHOLD ≤ vc o
    · refine Or.inr ⟨thresholdResult votes vc cbo o, Frontend.thresholdResult votes vc cbo o,
        ?_, ?_, rfl, rfl, rfl, rfl⟩
      · simp [checkOutcomesLoop, h]
      · simp [Frontend.checkOutcomesLoop, h]
    · simp only [checkOutcomesLoop, Frontend.checkOutcomesLoop, if_neg h]
      exact ih

theorem fetchEvidence_mismatch (disputeId : Str) (partyLabel : Char)
    (partyAddress : Str) (expectedHash : Str) (response : EvidenceHttpResponse)
    (hst : response.statusCode = 200)
    (hm : lowerStr (keccak256Hex response.body.content) ≠ lowerStr expectedHash) :
    fetchEvidenceConfidential disputeId partyLabel partyAddress expectedHash response
      = .error (("Evidence integrity check FAILED for party ".data) ++ [partyLabel]
        ++ ("! On-chain hash: ".data) ++ expectedHash
        ++ (" | Computed hash: ".data) ++ keccak256Hex response.body.content
        ++ (". Evidence may have been tampered with — aborting arbitration.".data)) := by
  simp [fetchEvidenceConfidential, hst, hm]

theorem fetchBoth_error_of_mismatch (dispute : DisputeRecord)
    (responseA responseB : EvidenceHttpResponse)
    (hm : (responseA.statusCode = 200
        ∧ lowerStr (keccak256Hex responseA.body.content) ≠ lowerStr dispute.evidenceHashA)
      ∨ (responseB.statusCode = 200
        ∧ lowerStr (keccak256Hex responseB.body.content) ≠ lowerStr dispute.evidenceHashB)) :
    ∃ e, fetchBothEvidences dispute responseA responseB = .error e := by
  rcases hm with ⟨hst, hmm⟩ | ⟨hst, hmm⟩
  · rw [fetchBothEvidences, fetchEvidence_mismatch dispute.id 'A' dispute.partyA
      dispute.evidenceHashA responseA hst hmm]
    exact ⟨_, rfl⟩
  · cases hA : fetchEvidenceConfidential dispute.id 'A' dispute.partyA
      dispute.evidenceHashA responseA with
    | error e => exact ⟨e, by rw [fetchBothEvidences, hA]⟩
    | ok evA =>
      rw [fetchBothEvidences, hA, fetchEvidence_mismatch dispute.id 'B' dispute.partyB
        dispute.evidenceHashB responseB hst hmm]
      exact ⟨_, rfl⟩

theorem resolveDispute_precond_fail (jsonParse : Str → Except Str ModelJsonPayload)
    (secpSign : List Nat → List Nat → SecpSignature) (disputeId : Str) (env : ResolveEnv)
    (h : env.dispute.status ≠ "IN_ARBITRATION".data
      ∨ env.dispute.evidenceHashA = zeroHash32
      ∨ env.dispute.evidenceHashB = zeroHash32) :
    (∃ e, (resolveDispute jsonParse secpSign disputeId env).1 = .error e)
      ∧ (resolveDispute jsonParse secpSign disputeId env).2 = [.fetchDispute] := by
  by_cases h1 : env.dispute.status = "IN_ARBITRATION".data
  · have h2 : env.dispute.evidenceHashA = zeroHash32
        ∨ env.dispute.evidenceHashB = zeroHash32 := by tauto
    have hres : resolveDispute jsonParse secpSign disputeId env
        = (.error (("Dispute ".data) ++ disputeId
            ++ (" has missing evidence hashes — both parties must submit evidence first".data)),
          [.fetchDispute]) := by
      simp only [resolveDispute]
      rw [if_neg (by simpa using h1), if_pos h2]
    rw [hres]
    exact ⟨⟨_, rfl⟩, rfl⟩
  · have hres : resolveDispute jsonParse secpSign disputeId env
        = (.error (("Dispute ".data) ++ disputeId
            ++ (" is not ready for arbitration. Status: ".data) ++ env.dispute.status),
          [.fetchDispute]) := by
      simp only [resolveDispute]
      rw [if_pos h1]
    rw [hres]
    exact ⟨⟨_, rfl⟩, rfl⟩

theorem resolveDispute_evidence_fail (jsonParse : Str → Except Str ModelJsonPayload)
    (secpSign : List Nat → List Nat → SecpSignature) (disputeId : Str) (env : ResolveEnv)
    (h1 : env.dispute.status = "IN_ARBITRATION".data)
    (h2 : ¬ env.dispute.evidenceHashA = zeroHash32)
    (h3 : ¬ env.dispute.evidenceHashB = zeroHash32)
    (e : Str)
    (he : fetchBothEvidences env.dispute env.evidenceResponseA env.evidenceResponseB
      = .error e) :
    resolveDispute jsonParse secpSign disputeId env
      = (.error e, [.fetchDispute, .fetchEvidence]) := by
  simp [resolveDispute, h1, h2, h3, he]

/-- C1: For every fully populated, well-formed `WorkflowVerdict`,
`computeVerdictHash` returns the keccak-256 of the concatenation of exactly
these 32-byte-encoded fields in this order: disputeId, finalOutcome as its
0–4 enum index, then for each of the 3 model votes in their fixed array order
the tuple (keccak-256 of the modelId string, vote enum index, confidence in
basis points, keccak-256 of the vote's reasoning text), then consensusCount,
evidenceHashA, evidenceHashB, executedAt, workflowRunId
(`specVerdictDigest` is written from the spec's wording). -/
theorem verdict_hash_field_order (verdict : WorkflowVerdict)
    (h : WellFormedVerdict verdict) :
    computeVerdictHash verdict = specVerdictDigest verdict :=
  congrArg keccak256 (preimage_bytes verdict h)

theorem verdict_hash_field_order_witness :
    WellFormedVerdict sampleVerdict
      ∧ computeVerdictHash sampleVerdict = specVerdictDigest sampleVerdict :=
  ⟨by decide, verdict_hash_field_order sampleVerdict (by decide)⟩

/-- C2 counterexample: two distinct fully populated `WorkflowVerdict`s that
differ in a single field (`disputeId`) yet hash to the same digest —
`encodeBytes32` truncates the dispute id to its first 64 hex digits, so two
ids agreeing on those digits but differing in the 65th collide. -/
theorem verdict_hash_truncation_counterexample :
    truncVerdict1 ≠ truncVerdict2
      ∧ computeVerdictHash truncVerdict1 = computeVerdictHash truncVerdict2 := by
  constructor
  · decide
  · apply congrArg keccak256
    apply congrArg hexToBytes
    have hfields : encodeBytes32 overlongDisputeId1 = encodeBytes32 overlongDisputeId2 := by
      decide
    simp only [verdictPreimageHex, verdictParts, truncVerdict1, truncVerdict2]
    rw [hfields]

/-- C2 (amended): `computeVerdictHash` is deterministic, and on well-formed
verdicts (canonical `bytes32` fields, in-range numeric fields) the byte
sequence fed to keccak-256 determines every committed attribute — disputeId,
outcome, each vote's (modelId-hash, vote index, confidence, reasoning-hash)
in order, consensusCount, the evidence hashes, executedAt and workflowRunId.
Hence changing any single field in a way that changes a committed attribute
(including reordering distinct model votes) changes the hashed byte sequence,
and the digests differ unless keccak-256 itself collides on the two
sequences.  (Unrestricted the claim is false — see
`verdict_hash_truncation_counterexample`.) -/
theorem verdict_hash_deterministic_committed (v1 v2 : WorkflowVerdict)
    (h1 : WellFormedVerdict v1) (h2 : WellFormedVerdict v2) :
    computeVerdictHash v1 = computeVerdictHash v1
    ∧ computeVerdictHash v1 = keccak256 (hexToBytes (verdictPreimageHex v1))
    ∧ (hexToBytes (verdictPreimageHex v1) = hexToBytes (verdictPreimageHex v2)
        → committedFields v1 = committedFields v2) := by
  refine ⟨rfl, rfl, fun heq => ?_⟩
  apply committed_of_specBytes v1 v2 h1 h2
  rw [← preimage_bytes v1 h1, ← preimage_bytes v2 h2]
  exact heq

theorem verdict_hash_deterministic_committed_witness :
    WellFormedVerdict sampleVerdict
      ∧ committedFields sampleVerdict = committedFields sampleVerdict :=
  ⟨by decide,
   (verdict_hash_deterministic_committed sampleVerdict sampleVerdict
     (by decide) (by decide)).2.2 rfl⟩

/-- C3: for every list of exactly 3 parsed votes containing at least one
CIRCUIT_BREAKER vote, `applyConsensus` returns finalOutcome CIRCUIT_BREAKER,
consensusCount equal to the number of CIRCUIT_BREAKER votes in the input, and
aggregateConfidenceBps 0, regardless of the other votes. -/
theorem circuit_breaker_dominance (votes : List ParsedModelVerdict)
    (hlen : votes.length = 3)
    (hcb : ∃ v ∈ votes, v.vote = .CIRCUIT_BREAKER) :
    ∃ result, applyConsensus votes = .ok result
      ∧ result.finalOutcome = .CIRCUIT_BREAKER
      ∧ result.consensusCount = votes.countP (fun v => v.vote == VerdictOutcome.CIRCUIT_BREAKER)
      ∧ result.aggregateConfidenceBps = 0 := by
  have hpos : 0 < countVotes votes .CIRCUIT_BREAKER := by
    rw [countVotes_eq]
    refine List.countP_pos_iff.mpr ?_
    obtain ⟨v, hv, he⟩ := hcb
    exact ⟨v, hv, by simp [beq_iff_eq, he]⟩
  refine ⟨_, applyConsensus_cb_branch votes hlen hpos, rfl, ?_, rfl⟩
  exact countVotes_eq votes .CIRCUIT_BREAKER

theorem circuit_breaker_dominance_witness :
    ∃ result,
      applyConsensus [mkVote ("claude-opus-4-6".data) .FAVOR_PARTY_A 90,
        mkVote ("gpt-4o".data) .FAVOR_PARTY_A 85, cbVote] = .ok result
      ∧ result.finalOutcome = .CIRCUIT_BREAKER
      ∧ result.consensusCount
          = ([mkVote ("claude-opus-4-6".data) .FAVOR_PARTY_A 90,
              mkVote ("gpt-4o".data) .FAVOR_PARTY_A 85, cbVote].countP
              (fun v => v.vote == VerdictOutcome.CIRCUIT_BREAKER))
      ∧ result.aggregateConfidenceBps = 0 :=
  circuit_breaker_dominance _ (by decide) ⟨cbVote, by decide, rfl⟩

/-- C4: for every list of exactly 3 parsed votes (votes in the parser's
range) with no CIRCUIT_BREAKER vote: if at least 2 votes are for the same
outcome, `applyConsensus` returns that outcome with consensusCount the number
of agreeing votes and aggregateConfidenceBps the rounding of the agreeing
votes' mean confidence percentage times 100; otherwise (all three votes
mutually distinct) it returns NO_CONSENSUS with consensusCount 1 and
aggregateConfidenceBps 0. -/
theorem consensus_majority_votes (votes : List ParsedModelVerdict)
    (hlen : votes.length = 3)
    (hparsed : ∀ v ∈ votes, v.vote ≠ .NO_CONSENSUS)
    (hnocb : ∀ v ∈ votes, v.vote ≠ .CIRCUIT_BREAKER) :
    (∀ o : VerdictOutcome, 2 ≤ votes.countP (fun v => v.vote == o) →
      ∃ result, applyConsensus votes = .ok result
        ∧ result.finalOutcome = o
        ∧ result.consensusCount = votes.countP (fun v => v.vote == o)
        ∧ result.aggregateConfidenceBps
            = round ((((votes.filter (fun v => v.vote == o)).map
                ParsedModelVerdict.confidencePct).sum
              / (((votes.filter (fun v => v.vote == o)).length : ℚ))) * 100))
    ∧ (List.Pairwise (fun a b => a.vote ≠ b.vote) votes →
      ∃ result, applyConsensus votes = .ok result
        ∧ result.finalOutcome = .NO_CONSENSUS
        ∧ result.consensusCount = 1
        ∧ result.aggregateConfidenceBps = 0) := by
  constructor
  · intro o hmaj
    refine ⟨_, consensus_majority_core votes hlen hparsed hnocb o hmaj, rfl, ?_, ?_⟩
    · exact countVotes_eq votes o
    · show round (((confidenceByOutcome votes o).sum
          / ((confidenceByOutcome votes o).length : ℚ)) * 100) = _
      rw [confidenceByOutcome_eq]
      simp [List.length_map]
  · intro hpw
    exact ⟨_, consensus_split_core votes hlen hnocb hpw, rfl, rfl, rfl⟩

theorem consensus_majority_votes_witness :
    ∃ result,
      applyConsensus [mkVote ("claude-opus-4-6".data) .FAVOR_PARTY_A 87,
        mkVote ("gpt-4o".data) .FAVOR_PARTY_A 82,
        mkVote ("mistral-large-2411".data) .FAVOR_PARTY_B 76] = .ok result
      ∧ result.finalOutcome = .FAVOR_PARTY_A
      ∧ result.consensusCount
          = ([mkVote ("claude-opus-4-6".data) .FAVOR_PARTY_A 87,
              mkVote ("gpt-4o".data) .FAVOR_PARTY_A 82,
              mkVote ("mistral-large-2411".data) .FAVOR_PARTY_B 76].countP
              (fun v => v.vote == VerdictOutcome.FAVOR_PARTY_A))
      ∧ result.aggregateConfidenceBps
          = round (((([mkVote ("claude-opus-4-6".data) .FAVOR_PARTY_A 87,
              mkVote ("gpt-4o".data) .FAVOR_PARTY_A 82,
              mkVote ("mistral-large-2411".data) .FAVOR_PARTY_B 76].filter
                (fun v => v.vote == VerdictOutcome.FAVOR_PARTY_A)).map
                ParsedModelVerdict.confidencePct).sum
            / ((([mkVote ("claude-opus-4-6".data) .FAVOR_PARTY_A 87,
              mkVote ("gpt-4o".data) .FAVOR_PARTY_A 82,
              mkVote ("mistral-large-2411".data) .FAVOR_PARTY_B 76].filter
                (fun v => v.vote == VerdictOutcome.FAVOR_PARTY_A)).length : ℚ))) * 100) :=
  (consensus_majority_votes _ (by decide) (by decide) (by decide)).1
    VerdictOutcome.FAVOR_PARTY_A (by decide)

/-- C10: for every list of exactly 3 parsed votes, the workflow consensus
engine and the frontend copy agree on finalOutcome, consensusCount,
aggregateConfidenceBps and the per-outcome voteCounts record. -/
theorem consensus_frontend_equivalent (votes : List ParsedModelVerdict)
    (hlen : votes.length = 3) :
    ∃ result, applyConsensus votes = .ok result
      ∧ result.finalOutcome = (Frontend.applyConsensus votes).finalOutcome
      ∧ result.consensusCount = (Frontend.applyConsensus votes).consensusCount
      ∧ result.aggregateConfidenceBps = (Frontend.applyConsensus votes).aggregateConfidenceBps
      ∧ ∀ o, result.voteCounts o = (Frontend.applyConsensus votes).voteCounts o := by
  by_cases hcb : 0 < countVotes votes .CIRCUIT_BREAKER
  · refine ⟨_, applyConsensus_cb_branch votes hlen hcb, ?_⟩
    have hf : Frontend.applyConsensus votes
        = Frontend.circuitBreakerResult votes (countVotes votes) := by
      simp [Frontend.applyConsensus, hcb]
    rw [hf]
    exact ⟨rfl, rfl, rfl, fun o => rfl⟩
  · have hcb0 : countVotes votes .CIRCUIT_BREAKER = 0 := by omega
    rw [applyConsensus_loop_branch votes hlen hcb0]
    have hf : Frontend.applyConsensus votes
        = match Frontend.checkOutcomesLoop votes (countVotes votes)
            (confidenceByOutcome votes) outcomesToCheck with
          | some result => result
          | none => Frontend.noConsensusResult votes (countVotes votes) := by
      simp [Frontend.applyConsensus, hcb0]
    rcases loops_align votes (countVotes votes) (confidenceByOutcome votes) outcomesToCheck with
      ⟨hn1, hn2⟩ | ⟨r1, r2, hs1, hs2, e1, e2, e3, e4⟩
    · rw [hn1, hf, hn2]
      exact ⟨_, rfl, rfl, rfl, rfl, fun o => rfl⟩
    · rw [hs1, hf, hs2]
      exact ⟨r1, rfl, e1, e2, e3, fun o => by rw [e4]⟩

theorem consensus_frontend_equivalent_witness :
    ∃ result,
      applyConsensus [mkVote ("claude-opus-4-6".data) .FAVOR_PARTY_B 80,
        mkVote ("gpt-4o".data) .FAVOR_PARTY_B 70,
        mkVote ("mistral-large-2411".data) .FAVOR_PARTY_A 65] = .ok result
      ∧ result.finalOutcome
          = (Frontend.applyConsensus [mkVote ("claude-opus-4-6".data) .FAVOR_PARTY_B 80,
              mkVote ("gpt-4o".data) .FAVOR_PARTY_B 70,
              mkVote ("mistral-large-2411".data) .FAVOR_PARTY_A 65]).finalOutcome
      ∧ result.consensusCount
          = (Frontend.applyConsensus [mkVote ("claude-opus-4-6".data) .FAVOR_PARTY_B 80,
              mkVote ("gpt-4o".data) .FAVOR_PARTY_B 70,
              mkVote ("mistral-large-2411".data) .FAVOR_PARTY_A 65]).consensusCount
      ∧ result.aggregateConfidenceBps
          = (Frontend.applyConsensus [mkVote ("claude-opus-4-6".data) .FAVOR_PARTY_B 80,
              mkVote ("gpt-4o".data) .FAVOR_PARTY_B 70,
              mkVote ("mistral-large-2411".data) .FAVOR_PARTY_A 65]).aggregateConfidenceBps
      ∧ ∀ o, result.voteCounts o
          = (Frontend.applyConsensus [mkVote ("claude-opus-4-6".data) .FAVOR_PARTY_B 80,
              mkVote ("gpt-4o".data) .FAVOR_PARTY_B 70,
              mkVote ("mistral-large-2411".data) .FAVOR_PARTY_A 65]).voteCounts o :=
  consensus_frontend_equivalent _ (by decide)

theorem keccak256Hex_length (s : Str) : (keccak256Hex s).length = 66 := by
  simp [keccak256Hex, bytesToHex_length, keccak256_length]

/-- C5: whenever the keccak-256 hash of the retrieved evidence content does
not equal the on-chain commitment supplied for that party,
`fetchEvidenceConfidential` raises the integrity error and never returns an
`Evidence` value; and in the orchestrator pipeline such a failure aborts the
run with an error before `queryAllModels` is ever reached. -/
theorem evidence_integrity_aborts :
    (∀ (disputeId : Str) (partyLabel : Char) (partyAddress expectedHash : Str)
        (response : EvidenceHttpResponse),
      response.statusCode = 200 →
      lowerStr (keccak256Hex response.body.content) ≠ lowerStr expectedHash →
      (∀ ev : Evidence,
        fetchEvidenceConfidential disputeId partyLabel partyAddress expectedHash response
          ≠ .ok ev)
      ∧ fetchEvidenceConfidential disputeId partyLabel partyAddress expectedHash response
          = .error (("Evidence integrity check FAILED for party ".data) ++ [partyLabel]
            ++ ("! On-chain hash: ".data) ++ expectedHash
            ++ (" | Computed hash: ".data) ++ keccak256Hex response.body.content
            ++ (". Evidence may have been tampered with — aborting arbitration.".data)))
    ∧ (∀ (jsonParse : Str → Except Str ModelJsonPayload)
        (secpSign : List Nat → List Nat → SecpSignature) (disputeId : Str) (env : ResolveEnv),
      ((env.evidenceResponseA.statusCode = 200
          ∧ lowerStr (keccak256Hex env.evidenceResponseA.body.content)
            ≠ lowerStr env.dispute.evidenceHashA)
        ∨ (env.evidenceResponseB.statusCode = 200
          ∧ lowerStr (keccak256Hex env.evidenceResponseB.body.content)
            ≠ lowerStr env.dispute.evidenceHashB)) →
      (∃ e, (resolveDispute jsonParse secpSign disputeId env).1 = .error e)
        ∧ WorkflowStep.queryModels ∉ (resolveDispute jsonParse secpSign disputeId env).2) := by
  constructor
  · intro disputeId partyLabel partyAddress expectedHash response hst hm
    have herr := fetchEvidence_mismatch disputeId partyLabel partyAddress expectedHash
      response hst hm
    refine ⟨fun ev hok => ?_, herr⟩
    rw [herr] at hok
    exact Except.noConfusion hok
  · intro jsonParse secpSign disputeId env hm
    by_cases hpre : env.dispute.status ≠ "IN_ARBITRATION".data
        ∨ env.dispute.evidenceHashA = zeroHash32 ∨ env.dispute.evidenceHashB = zeroHash32
    · obtain ⟨hex, htr⟩ := resolveDispute_precond_fail jsonParse secpSign disputeId env hpre
      refine ⟨hex, ?_⟩
      rw [htr]
      decide
    · push_neg at hpre
      obtain ⟨h1, h2, h3⟩ := hpre
      obtain ⟨e, he⟩ := fetchBoth_error_of_mismatch env.dispute env.evidenceResponseA
        env.evidenceResponseB hm
      rw [resolveDispute_evidence_fail jsonParse secpSign disputeId env h1 h2 h3 e he]
      exact ⟨⟨e, rfl⟩, by simp⟩

theorem evidence_integrity_aborts_witness :
    (∃ e, (resolveDispute jsonParseFail secpSignZero tamperedDispute.id tamperedEnv).1
      = .error e)
    ∧ WorkflowStep.queryModels
        ∉ (resolveDispute jsonParseFail secpSignZero tamperedDispute.id tamperedEnv).2 :=
  evidence_integrity_aborts.2 jsonParseFail secpSignZero tamperedDispute.id tamperedEnv
    (Or.inl ⟨rfl, fun h => by
      have h1 : (lowerStr (keccak256Hex tamperedEnv.evidenceResponseA.body.content)).length
          = 66 := by
        simp [lowerStr, keccak256Hex_length]
      have h2 : (lowerStr tamperedEnv.dispute.evidenceHashA).length = 6 := by decide
      rw [h] at h1
      omega⟩)

/-- C9: `resolveDispute` aborts with a fatal error, before fetching any
evidence, whenever the dispute status is not IN_ARBITRATION or either
evidence commitment is the all-zero `bytes32`; and every pipeline stage past
the dispute fetch is reached only when both preconditions hold. -/
theorem orchestrator_preconditions (jsonParse : Str → Except Str ModelJsonPayload)
    (secpSign : List Nat → List Nat → SecpSignature) (disputeId : Str) (env : ResolveEnv) :
    ((env.dispute.status ≠ "IN_ARBITRATION".data
        ∨ env.dispute.evidenceHashA = zeroHash32
        ∨ env.dispute.evidenceHashB = zeroHash32) →
      (∃ e, (resolveDispute jsonParse secpSign disputeId env).1 = .error e)
        ∧ (resolveDispute jsonParse secpSign disputeId env).2 = [.fetchDispute])
    ∧ (∀ step ∈ (resolveDispute jsonParse secpSign disputeId env).2,
        step ≠ WorkflowStep.fetchDispute →
        env.dispute.status = "IN_ARBITRATION".data
          ∧ env.dispute.evidenceHashA ≠ zeroHash32
          ∧ env.dispute.evidenceHashB ≠ zeroHash32) := by
  constructor
  · exact resolveDispute_precond_fail jsonParse secpSign disputeId env
  · intro step hstep hne
    by_cases hpre : env.dispute.status ≠ "IN_ARBITRATION".data
        ∨ env.dispute.evidenceHashA = zeroHash32 ∨ env.dispute.evidenceHashB = zeroHash32
    · obtain ⟨-, htr⟩ := resolveDispute_precond_fail jsonParse secpSign disputeId env hpre
      rw [htr] at hstep
      simp at hstep
      exact absurd hstep hne
    · push_neg at hpre
      exact ⟨hpre.1, hpre.2.1, hpre.2.2⟩

theorem orchestrator_preconditions_witness :
    (∃ e, (resolveDispute jsonParseFail secpSignZero tamperedDispute.id settledEnv).1
      = .error e)
    ∧ (resolveDispute jsonParseFail secpSignZero tamperedDispute.id settledEnv).2
        = [.fetchDispute] :=
  (orchestrator_preconditions jsonParseFail secpSignZero tamperedDispute.id settledEnv).1
    (Or.inl (by decide))

/-- C8: `parseModelResponse` totally normalizes every raw model response: a
transport error yields the CIRCUIT_BREAKER sentinel with confidence 0 and
parseSuccess false; absence of extractable JSON, an unparseable payload, or a
verdict outside the three allowed values yields the same sentinel with a
parse-error reasoning; and a well-formed payload yields its verdict with the
confidence clamped to [0, 100]. -/
theorem parse_model_response_total (jsonParse : Str → Except Str ModelJsonPayload)
    (modelId : Str) (raw : RawModelResponse) :
    (∀ err, raw.error = some err →
      parseModelResponse jsonParse modelId raw
        = { modelId := modelId, vote := .CIRCUIT_BREAKER, confidencePct := 0,
            reasoning := ("Model failed: ".data) ++ err, parseSuccess := false })
    ∧ (raw.error = none → extractJson raw.rawText = none →
      (parseModelResponse jsonParse modelId raw).vote = .CIRCUIT_BREAKER
        ∧ (parseModelResponse jsonParse modelId raw).confidencePct = 0
        ∧ (parseModelResponse jsonParse modelId raw).parseSuccess = false)
    ∧ (∀ jsonText msg, raw.error = none → extractJson raw.rawText = some jsonText →
      jsonParse jsonText = .error msg →
      (parseModelResponse jsonParse modelId raw).vote = .CIRCUIT_BREAKER
        ∧ (parseModelResponse jsonParse modelId raw).confidencePct = 0
        ∧ (parseModelResponse jsonParse modelId raw).parseSuccess = false)
    ∧ (∀ jsonText payload, raw.error = none → extractJson raw.rawText = some jsonText →
      jsonParse jsonText = .ok payload → outcomeOfName payload.verdict = none →
      (parseModelResponse jsonParse modelId raw).vote = .CIRCUIT_BREAKER
        ∧ (parseModelResponse jsonParse modelId raw).confidencePct = 0
        ∧ (parseModelResponse jsonParse modelId raw).parseSuccess = false)
    ∧ (∀ jsonText payload vote, raw.error = none → extractJson raw.rawText = some jsonText →
      jsonParse jsonText = .ok payload → outcomeOfName payload.verdict = some vote →
      (parseModelResponse jsonParse modelId raw).vote = vote
        ∧ (parseModelResponse jsonParse modelId raw).confidencePct
            = ((max 0 (min 100 (round payload.confidence)) : ℤ) : ℚ)
        ∧ (0 : ℚ) ≤ (parseModelResponse jsonParse modelId raw).confidencePct
        ∧ (parseModelResponse jsonParse modelId raw).confidencePct ≤ 100
        ∧ (parseModelResponse jsonParse modelId raw).parseSuccess = true) := by
  refine ⟨?_, ?_, ?_, ?_, ?_⟩
  · intro err herr
    simp [parseModelResponse, herr]
  · intro herr hext
    simp [parseModelResponse, herr, hext]
  · intro jsonText msg herr hext hjp
    simp [parseModelResponse, herr, hext, hjp]
  · intro jsonText payload herr hext hjp hon
    simp [parseModelResponse, herr, hext, hjp, hon]
  · intro jsonText payload vote herr hext hjp hon
    have hlo : (0 : ℤ) ≤ max 0 (min 100 (round payload.confidence)) := le_max_left _ _
    have hhi : max 0 (min 100 (round payload.confidence)) ≤ 100 :=
      max_le (by norm_num) (min_le_left _ _)
    have hres : parseModelResponse jsonParse modelId raw
        = { modelId := modelId, vote := vote,
            confidencePct := ((max 0 (min 100 (round payload.confidence)) : ℤ) : ℚ),
            reasoning := if payload.reasoning = [] then "No reasoning provided".data
                         else payload.reasoning,
            parseSuccess := true } := by
      simp [parseModelResponse, herr, hext, hjp, hon]
    rw [hres]
    refine ⟨rfl, rfl, ?_, ?_, rfl⟩
    · show (0 : ℚ) ≤ ((max 0 (min 100 (round payload.confidence)) : ℤ) : ℚ)
      exact_mod_cast hlo
    · show ((max 0 (min 100 (round payload.confidence)) : ℤ) : ℚ) ≤ 100
      exact_mod_cast hhi

theorem parse_model_response_total_witness :
    rawErrResponse.error = some ("HTTP 500".data)
    ∧ parseModelResponse jsonParseFail ("gpt-4o".data) rawErrResponse
        = { modelId := "gpt-4o".data, vote := .CIRCUIT_BREAKER, confidencePct := 0,
            reasoning := ("Model failed: ".data) ++ ("HTTP 500".data),
            parseSuccess := false } :=
  ⟨rfl,
   (parse_model_response_total jsonParseFail ("gpt-4o".data) rawErrResponse).1
     ("HTTP 500".data) rfl⟩

/-- C6: `signVerdict` computes the verdict hash, prepends the fixed prefix
`\x19Ethereum Signed Message:\n32`, keccak-256 hashes the result, signs that
hash with the secp256k1 signing function, and returns `0x` followed by r on
32 bytes, s on 32 bytes, and one byte `v = recovery id + 27`; and in the
ECDSA model of the external curve library (modelled from the spec),
recovering the public key from (digest, signature) yields the key — and hence
the operator address — derived from the operator's private key. -/
theorem sign_verdict_encoding_recovery {n : ℕ} [Fact (Nat.Prime n)] {G : Type}
    [AddCommGroup G] [Module (ZMod n) G]
    (g : G) (xcoord : G → ZMod n) (reconstructR : ZMod n → Nat → G)
    (pubKeyBytes : G → List Nat) (d k z : ZMod n) (recid : Nat)
    (secpSign : List Nat → List Nat → SecpSignature)
    (verdict : WorkflowVerdict) (operatorPrivKeyHex : Str)
    (hk : k ≠ 0)
    (hr : xcoord (k • g) ≠ 0)
    (hrec : reconstructR (xcoord (k • g)) recid = k • g) :
    (signVerdict secpSign verdict operatorPrivKeyHex
      = '0' :: 'x' ::
          (padStartChars 64 '0' (natToHex (secpSign
              (keccak256 (utf8Encode ETH_SIGNED_MESSAGE_PREFIX ++ computeVerdictHash verdict))
              (hexToBytes (replaceFirst0x operatorPrivKeyHex))).r)
           ++ padStartChars 64 '0' (natToHex (secpSign
              (keccak256 (utf8Encode ETH_SIGNED_MESSAGE_PREFIX ++ computeVerdictHash verdict))
              (hexToBytes (replaceFirst0x operatorPrivKeyHex))).s)
           ++ padStartChars 2 '0' (natToHex ((secpSign
              (keccak256 (utf8Encode ETH_SIGNED_MESSAGE_PREFIX ++ computeVerdictHash verdict))
              (hexToBytes (replaceFirst0x operatorPrivKeyHex))).recovery + 27))))
    ∧ ecdsaRecoverModel g reconstructR z
        (ecdsaSignModel g xcoord d k z).1 (ecdsaSignModel g xcoord d k z).2 recid = d • g
    ∧ operatorAddressOfPubKey (pubKeyBytes (ecdsaRecoverModel g reconstructR z
          (ecdsaSignModel g xcoord d k z).1 (ecdsaSignModel g xcoord d k z).2 recid))
        = operatorAddressOfPubKey (pubKeyBytes (d • g)) := by
  have hrecover : ecdsaRecoverModel g reconstructR z
      (ecdsaSignModel g xcoord d k z).1 (ecdsaSignModel g xcoord d k z).2 recid = d • g := by
    show (xcoord (k • g))⁻¹
        • ((k⁻¹ * (z + xcoord (k • g) * d)) • reconstructR (xcoord (k • g)) recid - z • g)
      = d • g
    rw [hrec]
    have hstep : (k⁻¹ * (z + xcoord (k • g) * d)) * k = z + xcoord (k • g) * d := by
      rw [mul_right_comm, inv_mul_cancel₀ hk, one_mul]
    calc (xcoord (k • g))⁻¹
          • ((k⁻¹ * (z + xcoord (k • g) * d)) • (k • g) - z • g)
        = (xcoord (k • g))⁻¹ • ((z + xcoord (k • g) * d) • g - z • g) := by
          rw [smul_smul, hstep]
      _ = (xcoord (k • g))⁻¹ • ((xcoord (k • g) * d) • g) := by
          rw [← sub_smul, add_sub_cancel_left]
      _ = d • g := by
          rw [smul_smul, ← mul_assoc, inv_mul_cancel₀ hr, one_mul]
  exact ⟨rfl, hrecover, by rw [hrecover]⟩

theorem sign_verdict_encoding_recovery_witness :
    ((3 : ZMod 7) ≠ 0)
    ∧ (id ((3 : ZMod 7) • (1 : ZMod 7)) ≠ 0)
    ∧ @ecdsaRecoverModel 7 ⟨by norm_num⟩ (ZMod 7) _ _ 1
        (fun _ _ => (3 : ZMod 7) • (1 : ZMod 7)) 5
        (@ecdsaSignModel 7 ⟨by norm_num⟩ (ZMod 7) _ _ 1 id 2 3 5).1
        (@ecdsaSignModel 7 ⟨by norm_num⟩ (ZMod 7) _ _ 1 id 2 3 5).2 0
      = (2 : ZMod 7) • (1 : ZMod 7) :=
  ⟨by decide, by decide,
   (@sign_verdict_encoding_recovery 7 ⟨by norm_num⟩ (ZMod 7) _ _ 1 id
     (fun _ _ => (3 : ZMod 7) • (1 : ZMod 7)) (fun _ => []) 2 3 5 0
     secpSignZero sampleVerdict [] (by decide) (by decide) rfl).2.1⟩

theorem outcomeOfName_range (s : Str) (v : VerdictOutcome) (h : outcomeOfName s = some v) :
    v ≠ .NO_CONSENSUS ∧ v ≠ .CIRCUIT_BREAKER := by
  unfold outcomeOfName at h
  split_ifs at h <;> simp_all <;> subst h <;> simp

theorem parseModelResponse_range (jsonParse : Str → Except Str ModelJsonPayload)
    (modelId : Str) (raw : RawModelResponse) :
    (parseModelResponse jsonParse modelId raw).vote ≠ .NO_CONSENSUS := by
  cases herr : raw.error with
  | some e => simp [parseModelResponse, herr]
  | none =>
    cases hext : extractJson raw.rawText with
    | none => simp [parseModelResponse, herr, hext]
    | some t =>
      cases hjp : jsonParse t with
      | error m => simp [parseModelResponse, herr, hext, hjp]
      | ok p =>
        cases hon : outcomeOfName p.verdict with
        | none => simp [parseModelResponse, herr, hext, hjp, hon]
        | some v =>
          simp [parseModelResponse, herr, hext, hjp, hon]
          exact (outcomeOfName_range p.verdict v hon).1
